import Mathlib

/-!
# Casdoor account registration and contact verification

A shallow embedding of `controllers/account.go`, `controllers/types.go` and
`controllers/verification.go`.

Every handler is a function from the collaborators it consults (`Env`), the
mutable request-visible state (`State`) and the request to a `Result`: the reply
written to the client, the ordered list of calls made to collaborators that have
an effect (`Event`), and the state afterwards.  A Go runtime panic (nil pointer
dereference, explicit `panic`) is the reply `Reply.runtimePanic`.
-/

namespace Casdoor

/-! ## Constants of `controllers/types.go` -/

def OTT_ORGANIZATION_ID : String := "OTT"
def OTT_USER_PROPERTY_INVITE_CODE : String := "invite_code"
def OTT_TYPE_PHONE : Int := 0
def OTT_TYPE_EMAIL : Int := 1
def OTT_CODE_OK : Nat := 200
def OTT_CODE_INVALID_PARAM : Nat := 203
def OTT_CODE_APPLICATION_NO_SIGNUP : Nat := 207
def OTT_CODE_VERIFICATION_CODE_NOT_MATCH : Nat := 208
def OTT_CODE_ADD_USER_FAILED : Nat := 209
def OTT_CODE_NEED_SIGN_OUT : Nat := 210
def OTT_CODE_INVALID_EMAIL : Nat := 302
def OTT_CODE_INVALID_PHONE : Nat := 301
def OTT_CODE_SEND_VERIFICATION_CODE_FAILED : Nat := 300

/-! ## Data model -/

/-- The fields of `RequestForm` that `Signup` reads. -/
structure RequestForm where
  Organization : String
  Username : String
  Password : String
  Name : String
  FirstName : String
  LastName : String
  Email : String
  Phone : String
  Affiliation : String
  IdCard : String
  Region : String
  Application : String
  EmailCode : String
  PhoneCode : String
  PhonePrefix : String
  deriving DecidableEq, Repr

/-- The body of a Lightweight signup; `*string` fields are `Option String`. -/
structure OTTSignUpRequest where
  AppId : String
  Type_ : Int
  Prefix : Option String
  Identity : String
  VerificationCode : String
  Pwd : String
  InvitationCode : Option String
  deriving DecidableEq, Repr

/-- The body of a Lightweight send-verification-code request. -/
structure SendVerificationCodeRequest where
  AppId : String
  Purpose : Int
  Type_ : Int
  Prefix : Option String
  Dest : String
  deriving DecidableEq, Repr

/-- The Standard envelope; `Data` carries the one string payload the handlers here send. -/
structure Response where
  Status : String
  Msg : String
  Data : String
  deriving DecidableEq, Repr

/-- The payload of a Lightweight reply. -/
inductive OTTBody where
  | none
  | register (UserId : String)
  | sendVerificationCode (Timer : Nat)
  deriving DecidableEq, Repr

/-- The Lightweight envelope. -/
structure OTTResponse where
  Code : Nat
  Msg : String
  Body : OTTBody
  deriving DecidableEq, Repr

/-- The account entity `object.User`, with the fields the handlers set or read. -/
structure User where
  Owner : String
  Name : String
  CreatedTime : String
  Id : String
  Type_ : String
  Password : String
  DisplayName : String
  FirstName : String
  LastName : String
  Avatar : String
  Email : String
  Phone : String
  Address : List String
  Affiliation : String
  IdCard : String
  Region : String
  Score : Int
  IsAdmin : Bool
  IsGlobalAdmin : Bool
  IsForbidden : Bool
  IsDeleted : Bool
  SignupApplication : String
  Properties : List (String × String)
  Karma : Int
  Tag : String
  deriving DecidableEq, Repr

/-- The organization entity: the defaults read at account creation. -/
structure Organization where
  Name : String
  DefaultAvatar : String
  PhonePrefix : String
  Tags : List String
  deriving DecidableEq, Repr

/-- The application entity. Its signup-item table is read only through the two
accessors `IsSignupItemVisible` and `GetSignupItemRule`, and its prompt-page
configuration only through `HasPromptPage`; they are carried as given. -/
structure Application where
  Name : String
  Organization : String
  EnableSignUp : Bool
  IsSignupItemVisible : String → Bool
  GetSignupItemRule : String → String
  HasPromptPage : Bool

/-- A record of the verification code service: one issued code for one destination. -/
structure VerificationRecord where
  Receiver : String
  Code : String
  Expiry : Nat
  IsUsed : Bool
  deriving DecidableEq, Repr

/-- What a handler leaves behind: a Standard envelope, a Lightweight envelope, or a Go panic. -/
inductive Reply where
  | std (r : Response)
  | ott (r : OTTResponse)
  | runtimePanic (reason : String)
  deriving DecidableEq, Repr

/-- The calls with an effect on a collaborator, in the order the handler makes them. -/
inductive Event where
  | checkVerificationCode (dest code result : String)
  | addUser (user : User) (affected : Bool)
  | addUserToOriginalDatabase (user : User)
  | setSessionUsername (userId : String)
  | disableVerificationCode (dest : String)
  | addRecord (organization user : String)
  | sendVerificationCodeToEmail (dest : String) (failure : Option String)
  | sendVerificationCodeToPhone (dest : String) (failure : Option String)
  | setUserField (user : User) (field value : String)
  deriving DecidableEq, Repr

/-- The state a request can change that later requests observe in this development:
the session and the verification records. -/
structure State where
  sessionUsername : String
  records : List VerificationRecord
  now : Nat
  deriving DecidableEq, Repr

/-- The collaborators of packages `object` and `util` (and the controller base),
none of which is part of the three files: each is taken as given, a total function of
its arguments. A pointer result is an `Option` (`none` is nil), an `error` result is an
`Option String` (`none` is nil, no error). -/
structure Env where
  GetApplication : String → Option Application
  GetOrganization : String → Option Organization
  GetApplicationByOrganizationName : String → Option Application
  CheckUserSignup : Application → Option Organization → String → String → String → String →
    String → String → String → String → String
  OTTCheckUserSignup : Application → Option Organization → Int → String → String → String →
    String → String → String → Option String → String → String
  GenerateId : String
  GetCurrentTime : String
  getInitScore : Int
  GetLastUser : String → Option User
  GetUser : String → Option User
  GetUserByFields : String → String → Option User
  GetOrganizationByUser : User → Option Organization
  AddUser : User → Bool
  StructToJson : User → String
  GetDefaultHumanCheckProvider : Option String
  VerifyCaptcha : String → String → Bool
  GetMaskedEmail : String → String
  GetMaskedPhone : String → String
  IsEmailValid : String → Bool
  MakeInternationalPhone : String → String → String
  GetOwnerAndNameFromId : String → Option (String × String)
  GetIPFromRequest : String
  GetEmailProvider : Option Application → Option String
  GetSmsProvider : Option Application → Option String
  SendVerificationCodeToEmail : Option Organization → Option User → Option String → String →
    String → Option String
  SendVerificationCodeToPhone : Option Organization → Option User → Option String → String →
    String → Option String
  newCode : String
  codeLifetime : Nat

/-- The outcome of running a handler. -/
structure Result where
  reply : Reply
  trace : List Event
  state : State
  deriving DecidableEq, Repr

/-! ## The controller base -/

/-- `c.ResponseError(msg)`: the Standard error envelope. -/
def ResponseError (msg : String) (data : String) : Reply :=
  Reply.std { Status := "error", Msg := msg, Data := data }

/-- `c.ResponseOk(data)`: the Standard success envelope. -/
def ResponseOk (data : String) : Reply :=
  Reply.std { Status := "ok", Msg := "", Data := data }

/-- `c.OTTResponseError(code, msg)`: the Lightweight error envelope. -/
def OTTResponseError (code : Nat) (msg : String) : Reply :=
  Reply.ott { Code := code, Msg := msg, Body := OTTBody.none }

/-- `c.OTTResponseOk(body)`: the Lightweight success envelope. -/
def OTTResponseOk (body : OTTBody) : Reply :=
  Reply.ott { Code := OTT_CODE_OK, Msg := "", Body := body }

/-- The panic of dereferencing a nil pointer. -/
def nilDereference : Reply :=
  Reply.runtimePanic "invalid memory address or nil pointer dereference"

/-! ## Verification code service -/

/-- Modelled from the spec: `object.CheckVerificationCode` is not in the three files.
`check(destination, code)` returns the empty success indicator exactly when the
destination has an outstanding (not consumed, not expired) record holding that code,
and a descriptive condition otherwise; it never changes the records. -/
def CheckVerificationCode (records : List VerificationRecord) (now : Nat)
    (dest code : String) : String :=
  match records.filter (fun r => r.Receiver == dest && !r.IsUsed) with
  | [] => "Code has not been sent yet!"
  | outstanding =>
    if outstanding.any (fun r => r.Code == code && decide (now ≤ r.Expiry)) then ""
    else if outstanding.any (fun r => r.Code == code) then "Code has expired!"
    else "Wrong code!"

/-- Modelled from the spec: `object.DisableVerificationCode` is not in the three files.
`invalidate(destination)` marks every outstanding code of the destination as unusable,
and is a no-op when the destination is empty or has no outstanding code. -/
def DisableVerificationCode (records : List VerificationRecord) (dest : String) :
    List VerificationRecord :=
  records.map (fun r => if r.Receiver == dest then { r with IsUsed := true } else r)

/-- Modelled from the spec: the record a successful `issue(destination)` creates. -/
def issueRecord (env : Env) (s : State) (dest : String) : VerificationRecord :=
  { Receiver := dest, Code := env.newCode, Expiry := s.now + env.codeLifetime, IsUsed := false }

/-- Modelled from the spec: `user.GetId()` is the composed `owner/name` identifier. -/
def User.GetId (user : User) : String :=
  user.Owner ++ "/" ++ user.Name

/-! ## Strings and integers of the Go runtime -/

/-- `strings.HasPrefix(s, p)`. -/
def HasPrefix (s p : String) : Bool :=
  p.data.isPrefixOf s.data

/-- `strings.Split(s, "|")[0]`: the part of `s` before the first separator. -/
def firstToken (s : String) : String :=
  String.mk (s.data.takeWhile (fun c => c != '|'))

/-- The decimal digit character of `d < 10`. -/
def digitChar (d : Nat) : Char :=
  Char.ofNat (48 + d)

/-- The value of a decimal digit character. -/
def digitValue (c : Char) : Option Nat :=
  if 48 ≤ c.toNat ∧ c.toNat ≤ 57 then some (c.toNat - 48) else none

/-- The decimal digits of `n`, most significant first, with `fuel` bounding the recursion. -/
def decimalDigits : Nat → Nat → List Char
  | 0, _ => []
  | fuel + 1, n => if n < 10 then [digitChar n] else decimalDigits fuel (n / 10) ++ [digitChar (n % 10)]

/-- The decimal text of a natural number. -/
def natToDecimal (n : Nat) : List Char :=
  decimalDigits (n + 1) n

/-- One step of reading decimal digits: shift the value read so far and add the digit. -/
def decimalStep (acc : Option Nat) (c : Char) : Option Nat :=
  acc.bind (fun a => (digitValue c).map (fun d => 10 * a + d))

/-- The natural number a non-empty string of decimal digits denotes. -/
def decimalToNat (cs : List Char) : Option Nat :=
  match cs with
  | [] => none
  | _ => cs.foldl decimalStep (some 0)

/-- `strconv.Itoa`: the decimal text of an integer. -/
def Itoa (i : Int) : String :=
  match i with
  | Int.ofNat n => String.mk (natToDecimal n)
  | Int.negSucc n => String.mk ('-' :: natToDecimal (n + 1))

/-- The range of Go's `int` on a 64-bit platform. -/
def inInt64 (i : Int) : Bool :=
  decide (-(2 : Int) ^ 63 ≤ i) && decide (i < (2 : Int) ^ 63)

/-- Addition of Go's `int` on a 64-bit platform: two's complement wrap-around. -/
def wrapInt64 (i : Int) : Int :=
  (i + (2 : Int) ^ 63) % (2 : Int) ^ 64 - (2 : Int) ^ 63

/-- Modelled from the spec: `util.ParseInt` is not in the three files. It parses an
identifier as an integer: an optional sign and decimal digits, within the range of
`int`; anything else has no integer value and the call panics (`none`). -/
def ParseInt (s : String) : Option Int :=
  let value : Option Int :=
    match s.data with
    | '-' :: cs => (decimalToNat cs).map (fun n => -Int.ofNat n)
    | '+' :: cs => (decimalToNat cs).map Int.ofNat
    | cs => (decimalToNat cs).map Int.ofNat
  value.bind (fun i => if inInt64 i then some i else none)

/-! ## Standard signup (`ApiController.Signup`) -/

/-- Lines 161-171 of `account.go`: the identifier of the new account; `none` is the
panic of `util.ParseInt`. -/
def signupAllocateId (env : Env) (application : Application) (form : RequestForm) :
    Option String :=
  if application.GetSignupItemRule "ID" = "Incremental" then
    match env.GetLastUser form.Organization with
    | none => some (Itoa (wrapInt64 (-1 + 1)))
    | some lastUser =>
      match ParseInt lastUser.Id with
      | none => none
      | some lastIdInt => some (Itoa (wrapInt64 (lastIdInt + 1)))
  else some env.GenerateId

/-- Lines 203-208 and 345-350: the tag taken from the organization. -/
def signupTag (organization : Organization) : String :=
  match organization.Tags with
  | [] => ""
  | tag :: _ => firstToken tag

/-- Lines 173-216: the account entity built from the form. -/
def signupUser (env : Env) (application : Application) (organization : Organization)
    (form : RequestForm) (id : String) : User :=
  let username := if application.IsSignupItemVisible "Username" then form.Username else id
  let firstLast : Bool :=
    decide (application.GetSignupItemRule "Display name" = "First, last") &&
      (decide (form.FirstName ≠ "") || decide (form.LastName ≠ ""))
  { Owner := form.Organization
    Name := username
    CreatedTime := env.GetCurrentTime
    Id := id
    Type_ := "normal-user"
    Password := form.Password
    DisplayName := if firstLast then form.FirstName ++ " " ++ form.LastName else form.Name
    FirstName := if firstLast then form.FirstName else ""
    LastName := if firstLast then form.LastName else ""
    Avatar := organization.DefaultAvatar
    Email := form.Email
    Phone := form.Phone
    Address := []
    Affiliation := form.Affiliation
    IdCard := form.IdCard
    Region := form.Region
    Score := env.getInitScore
    IsAdmin := false
    IsGlobalAdmin := false
    IsForbidden := false
    IsDeleted := false
    SignupApplication := application.Name
    Properties := []
    Karma := 0
    Tag := signupTag organization }

/-- Lines 218-242 and 352-376: persist the entity, then the side effects after creation.
`rejected` and `accepted` build the two replies; `dest1` and `dest2` are the two
destinations whose codes are invalidated. -/
def persistUser (env : Env) (s : State) (application : Application) (user : User)
    (dest1 dest2 : String) (rejected : User → Reply) (accepted : String → Reply)
    (pre : List Event) : Result :=
  if env.AddUser user = false then
    { reply := rejected user, trace := pre ++ [Event.addUser user false], state := s }
  else
    { reply := accepted (user.Owner ++ "/" ++ user.Name)
      trace := pre ++ [Event.addUser user true, Event.addUserToOriginalDatabase user] ++
        (if application.HasPromptPage then [Event.setSessionUsername user.GetId] else []) ++
        [Event.disableVerificationCode dest1, Event.disableVerificationCode dest2,
         Event.addRecord application.Organization user.Name]
      state :=
        { sessionUsername := if application.HasPromptPage then user.GetId else s.sessionUsername
          records := DisableVerificationCode (DisableVerificationCode s.records dest1) dest2
          now := s.now } }

/-- The reply of `Signup` when `object.AddUser` rejects the entity (line 220). -/
def signupRejected (env : Env) (user : User) : Reply :=
  ResponseError ("Failed to create user, user information is invalid: " ++ env.StructToJson user) ""

/-- Lines 161-242: identifier allocation, entity construction and persistence. -/
def signupCreate (env : Env) (s : State) (application : Application)
    (organization : Option Organization) (form : RequestForm) (checkPhone : String)
    (pre : List Event) : Result :=
  match signupAllocateId env application form with
  | none => { reply := Reply.runtimePanic "strconv.Atoi: invalid syntax", trace := pre, state := s }
  | some id =>
    match organization with
    | none => { reply := nilDereference, trace := pre, state := s }
    | some org =>
      persistUser env s application (signupUser env application org form id)
        form.Email checkPhone (signupRejected env) ResponseOk pre

/-- Lines 151-159, then the rest of `Signup`: the phone channel. -/
def signupPhone (env : Env) (s : State) (application : Application)
    (organization : Option Organization) (form : RequestForm) (pre : List Event) : Result :=
  if application.IsSignupItemVisible "Phone" = true ∧ form.Phone ≠ "" then
    let checkPhone := "+" ++ form.PhonePrefix ++ form.Phone
    let checkResult := CheckVerificationCode s.records s.now checkPhone form.PhoneCode
    let pre2 := pre ++ [Event.checkVerificationCode checkPhone form.PhoneCode checkResult]
    if checkResult ≠ "" then
      { reply := ResponseError ("Phone: " ++ checkResult) "", trace := pre2, state := s }
    else signupCreate env s application organization form checkPhone pre2
  else signupCreate env s application organization form "" pre

/-- The handler `ApiController.Signup` (lines 118-243 of `account.go`). The body is the
result of `json.Unmarshal`: the form, or the error the handler panics with. -/
def Signup (env : Env) (s : State) (body : Except String RequestForm) : Result :=
  if s.sessionUsername ≠ "" then
    { reply := ResponseError "Please sign out first before signing up" s.sessionUsername
      trace := [], state := s }
  else
    match body with
    | Except.error err => { reply := Reply.runtimePanic err, trace := [], state := s }
    | Except.ok form =>
      match env.GetApplication ("admin/" ++ form.Application) with
      | none => { reply := nilDereference, trace := [], state := s }
      | some application =>
        if application.EnableSignUp = false then
          { reply := ResponseError "The application does not allow to sign up new account" ""
            trace := [], state := s }
        else
          let organization := env.GetOrganization ("admin/" ++ form.Organization)
          let msg := env.CheckUserSignup application organization form.Username form.Password
            form.Name form.FirstName form.LastName form.Email form.Phone form.Affiliation
          if msg ≠ "" then
            { reply := ResponseError msg "", trace := [], state := s }
          else if application.IsSignupItemVisible "Email" = true ∧
              application.GetSignupItemRule "Email" ≠ "No verification" ∧ form.Email ≠ "" then
            let checkResult := CheckVerificationCode s.records s.now form.Email form.EmailCode
            let pre := [Event.checkVerificationCode form.Email form.EmailCode checkResult]
            if checkResult ≠ "" then
              { reply := ResponseError ("Email: " ++ checkResult) "", trace := pre, state := s }
            else signupPhone env s application organization form pre
          else signupPhone env s application organization form []

/-! ## Lightweight signup (`ApiController.OTTSignup`) -/

/-- Lines 314-350: the account entity of a Lightweight signup. -/
def ottSignupUser (env : Env) (application : Application) (organization : Organization)
    (form : OTTSignUpRequest) (id email phone region : String) : User :=
  { Owner := OTT_ORGANIZATION_ID
    Name := id
    CreatedTime := env.GetCurrentTime
    Id := id
    Type_ := "normal-user"
    Password := form.Pwd
    DisplayName := id
    FirstName := ""
    LastName := ""
    Avatar := organization.DefaultAvatar
    Email := email
    Phone := phone
    Address := []
    Affiliation := ""
    IdCard := ""
    Region := region
    Score := env.getInitScore
    IsAdmin := false
    IsGlobalAdmin := false
    IsForbidden := false
    IsDeleted := false
    SignupApplication := application.Name
    Properties :=
      match form.InvitationCode with
      | some code => if code ≠ "" then [(OTT_USER_PROPERTY_INVITE_CODE, code)] else []
      | none => []
    Karma := 0
    Tag := signupTag organization }

/-- The reply of `OTTSignup` when `object.AddUser` rejects the entity (line 354). -/
def ottSignupRejected (env : Env) (user : User) : Reply :=
  OTTResponseError OTT_CODE_ADD_USER_FAILED
    ("Failed to create user, user information is invalid: " ++ env.StructToJson user)

/-- Lines 300-376: random identifier, entity construction and persistence. -/
def ottSignupCreate (env : Env) (s : State) (application : Application)
    (organization : Option Organization) (form : OTTSignUpRequest)
    (email phone region checkPhone : String) (pre : List Event) : Result :=
  match organization with
  | none => { reply := nilDereference, trace := pre, state := s }
  | some org =>
    persistUser env s application
      (ottSignupUser env application org form env.GenerateId email phone region)
      form.Identity checkPhone (ottSignupRejected env)
      (fun userId => OTTResponseOk (OTTBody.register userId)) pre

/-- The handler `ApiController.OTTSignup` (lines 245-377 of `account.go`). The body is
the result of `json.Unmarshal`: the form, or the error message. -/
def OTTSignup (env : Env) (s : State) (body : Except String OTTSignUpRequest) : Result :=
  if s.sessionUsername ≠ "" then
    { reply := OTTResponseError OTT_CODE_NEED_SIGN_OUT "Please sign out first before signing up"
      trace := [], state := s }
  else
    match body with
    | Except.error err =>
      { reply := OTTResponseError OTT_CODE_INVALID_PARAM err, trace := [], state := s }
    | Except.ok form =>
      match env.GetApplication ("admin/" ++ form.AppId) with
      | none => { reply := nilDereference, trace := [], state := s }
      | some application =>
        if application.EnableSignUp = false then
          { reply := OTTResponseError OTT_CODE_APPLICATION_NO_SIGNUP
              "The application does not allow to sign up new account"
            trace := [], state := s }
        else
          let organization := env.GetOrganization ("admin/" ++ OTT_ORGANIZATION_ID)
          let msg := env.OTTCheckUserSignup application organization form.Type_ "" form.Pwd
            "" "" "" form.Identity form.Prefix ""
          if msg ≠ "" then
            { reply := OTTResponseError OTT_CODE_INVALID_PARAM msg, trace := [], state := s }
          else if form.Type_ = 1 then
            if application.IsSignupItemVisible "Email" = true ∧
                application.GetSignupItemRule "Email" ≠ "No verification" ∧
                form.Identity ≠ "" then
              let checkResult :=
                CheckVerificationCode s.records s.now form.Identity form.VerificationCode
              let pre := [Event.checkVerificationCode form.Identity form.VerificationCode checkResult]
              if checkResult ≠ "" then
                { reply := OTTResponseError OTT_CODE_VERIFICATION_CODE_NOT_MATCH
                    ("Email: " ++ checkResult)
                  trace := pre, state := s }
              else ottSignupCreate env s application organization form form.Identity "" "" "" pre
            else ottSignupCreate env s application organization form "" "" "" "" []
          else if form.Type_ = 0 then
            match form.Prefix with
            | some pre0 =>
              if application.IsSignupItemVisible "Phone" = true ∧ form.Identity ≠ "" ∧
                  pre0 ≠ "" then
                let checkPhone := "+" ++ pre0 ++ form.Identity
                let checkResult :=
                  CheckVerificationCode s.records s.now checkPhone form.VerificationCode
                let pre := [Event.checkVerificationCode checkPhone form.VerificationCode checkResult]
                if checkResult ≠ "" then
                  { reply := OTTResponseError OTT_CODE_VERIFICATION_CODE_NOT_MATCH
                      ("Phone: " ++ checkResult)
                    trace := pre, state := s }
                else
                  ottSignupCreate env s application organization form "" checkPhone pre0
                    checkPhone pre
              else ottSignupCreate env s application organization form "" "" "" "" []
            | none => ottSignupCreate env s application organization form "" "" "" "" []
          else ottSignupCreate env s application organization form "" "" "" "" []

/-! ## Verification handlers (`verification.go`) -/

/-- The form values `SendVerificationCode` reads from the request. -/
structure SendVerificationCodeForm where
  type_ : String
  dest : String
  organizationId : String
  checkType : String
  checkId : String
  checkKey : String
  checkUser : String
  deriving DecidableEq, Repr

/-- `ApiController.getCurrentUser` (lines 35-44 of `verification.go`). -/
def getCurrentUser (env : Env) (s : State) : Option User :=
  if s.sessionUsername = "" then none else env.GetUser s.sessionUsername

/-- Lines 65-69: the human check as `SendVerificationCode` decides it. -/
def isHuman (env : Env) (checkId checkKey : String) : Bool :=
  match env.GetDefaultHumanCheckProvider with
  | none => env.VerifyCaptcha checkId checkKey
  | some _ => false

/-- Lines 93-95 and 165-167: the de-masking step of the email channel. -/
def demaskEmail (env : Env) (user : Option User) (dest : String) : String :=
  match user with
  | some u => if env.GetMaskedEmail u.Email = dest then u.Email else dest
  | none => dest

/-- Lines 104-106 and 172-174: the de-masking step of the phone channel. -/
def demaskPhone (env : Env) (user : Option User) (dest : String) : String :=
  match user with
  | some u => if env.GetMaskedPhone u.Phone = dest then u.Phone else dest
  | none => dest

/-- Lines 118-121: the phone normalization of `SendVerificationCode`. -/
def normalizePhone (phonePrefix dest : String) : String :=
  if HasPrefix dest "+" then dest else "+" ++ phonePrefix ++ dest

/-- Lines 87-90: the account the request is bound to; the outer `none` is the panic of
`util.GetOwnerAndNameFromId`. -/
def boundUser (env : Env) (user : Option User) (orgId checkUser : String) :
    Option (Option User) :=
  if user = none ∧ checkUser ≠ "" ∧ checkUser ≠ "true" then
    match env.GetOwnerAndNameFromId orgId with
    | none => none
    | some (_, name) => some (env.GetUser (name ++ "/" ++ checkUser))
  else some user

/-- Lines 126-132: the Standard reply to a dispatch. -/
def sendReply (sendResp : Option String) : Reply :=
  match sendResp with
  | some err => Reply.std { Status := "error", Msg := err, Data := "" }
  | none => Reply.std { Status := "ok", Msg := "", Data := "" }

/-- The records after a dispatch to `dest`: a successful one creates a record. -/
def afterDispatch (env : Env) (s : State) (dest : String) (sendResp : Option String) : State :=
  match sendResp with
  | some _ => s
  | none => { s with records := issueRecord env s dest :: s.records }

/-- The handler `ApiController.SendVerificationCode` (lines 50-133 of `verification.go`). -/
def SendVerificationCode (env : Env) (s : State) (form : SendVerificationCodeForm) : Result :=
  if form.type_ = "" ∨ form.dest = "" ∨ form.organizationId = "" ∨
      ¬ ('/' ∈ form.organizationId.data) ∨ form.checkType = "" ∨ form.checkId = "" ∨
      form.checkKey = "" then
    { reply := ResponseError "Missing parameter." "", trace := [], state := s }
  else if isHuman env form.checkId form.checkKey = false then
    { reply := ResponseError "Turing test failed." "", trace := [], state := s }
  else
    let user := getCurrentUser env s
    match env.GetOrganization form.organizationId with
    | none => { reply := nilDereference, trace := [], state := s }
    | some organization =>
      let application := env.GetApplicationByOrganizationName organization.Name
      if form.checkUser = "true" ∧ user = none ∧
          env.GetUserByFields organization.Name form.dest = none then
        { reply := ResponseError "Please login first" "", trace := [], state := s }
      else
        match boundUser env user form.organizationId form.checkUser with
        | none => { reply := Reply.runtimePanic "GetOwnerAndNameFromId() error", trace := [], state := s }
        | some user =>
          if form.type_ = "email" then
            let dest := demaskEmail env user form.dest
            if env.IsEmailValid dest = false then
              { reply := ResponseError "Invalid Email address" "", trace := [], state := s }
            else
              let sendResp := env.SendVerificationCodeToEmail (some organization) user
                (env.GetEmailProvider application) env.GetIPFromRequest dest
              { reply := sendReply sendResp
                trace := [Event.sendVerificationCodeToEmail dest sendResp]
                state := afterDispatch env s dest sendResp }
          else if form.type_ = "phone" then
            let dest := demaskPhone env user form.dest
            match env.GetOrganization form.organizationId with
            | none => { reply := ResponseError "Missing parameter." "", trace := [], state := s }
            | some org =>
              let dest := normalizePhone org.PhonePrefix dest
              let sendResp := env.SendVerificationCodeToPhone (some organization) user
                (env.GetSmsProvider application) env.GetIPFromRequest dest
              { reply := sendReply sendResp
                trace := [Event.sendVerificationCodeToPhone dest sendResp]
                state := afterDispatch env s dest sendResp }
          else
            { reply := sendReply (some "Invalid dest type"), trace := [], state := s }

/-- Lines 188-194: the Lightweight reply to a dispatch. Line 191 names the payload
field `Data`; the payload field of the envelope `OTTResponse` is `Body`. -/
def ottSendReply (sendResp : Option String) : Reply :=
  match sendResp with
  | some err =>
    Reply.ott { Code := OTT_CODE_SEND_VERIFICATION_CODE_FAILED, Msg := err, Body := OTTBody.none }
  | none => Reply.ott { Code := OTT_CODE_OK, Msg := "", Body := OTTBody.sendVerificationCode 60 }

/-- The handler `ApiController.OTTSendVerificationCode` (lines 135-195 of
`verification.go`). The body is the result of `json.Unmarshal`. The local `user` is
never assigned, so it is nil throughout. -/
def OTTSendVerificationCode (env : Env) (s : State)
    (body : Except String SendVerificationCodeRequest) : Result :=
  match body with
  | Except.error err => { reply := OTTResponseError 203 err, trace := [], state := s }
  | Except.ok svcRequest =>
    let user : Option User := none
    let application := env.GetApplication ("admin/" ++ svcRequest.AppId)
    let organization := env.GetOrganization "admin/OTT"
    if svcRequest.Type_ = 1 then
      if env.IsEmailValid svcRequest.Dest = false then
        { reply := OTTResponseError OTT_CODE_INVALID_EMAIL "Invalid Email address"
          trace := [], state := s }
      else
        let dest := demaskEmail env user svcRequest.Dest
        let sendResp := env.SendVerificationCodeToEmail organization user
          (env.GetEmailProvider application) env.GetIPFromRequest dest
        { reply := ottSendReply sendResp
          trace := [Event.sendVerificationCodeToEmail dest sendResp]
          state := afterDispatch env s dest sendResp }
    else if svcRequest.Type_ = 0 then
      match svcRequest.Prefix with
      | none => { reply := nilDereference, trace := [], state := s }
      | some pre0 =>
        let dest := env.MakeInternationalPhone pre0 svcRequest.Dest
        let sendResp := env.SendVerificationCodeToPhone organization user
          (env.GetSmsProvider application) env.GetIPFromRequest dest
        { reply := ottSendReply sendResp
          trace := [Event.sendVerificationCodeToPhone dest sendResp]
          state := afterDispatch env s dest sendResp }
    else
      { reply := ottSendReply (some "send verification code failed"), trace := [], state := s }

/-- Modelled from the spec: `ApiController.RequireSignedIn` is not in the three files.
The operation requires an active session: without one it replies with an error and
yields no user id. -/
def RequireSignedIn (s : State) : Except Reply String :=
  if s.sessionUsername = "" then Except.error (ResponseError "Please sign in first" "")
  else Except.ok s.sessionUsername

/-- Lines 221-229: the destination whose code `ResetEmailOrPhone` checks. -/
def resetCheckDest (env : Env) (user : User) (destType dest : String) : String :=
  if destType = "phone" then
    let phonePrefix :=
      match env.GetOrganizationByUser user with
      | some org => if org.PhonePrefix ≠ "" then org.PhonePrefix else "86"
      | none => "86"
    env.MakeInternationalPhone phonePrefix dest
  else dest

/-- The handler `ApiController.ResetEmailOrPhone` (lines 201-250 of `verification.go`). -/
def ResetEmailOrPhone (env : Env) (s : State) (destType dest code : String) : Result :=
  match RequireSignedIn s with
  | Except.error reply => { reply := reply, trace := [], state := s }
  | Except.ok userId =>
    match env.GetUser userId with
    | none =>
      { reply := ResponseError ("The user: " ++ userId ++ " doesn't exist") ""
        trace := [], state := s }
    | some user =>
      if dest = "" ∨ code = "" ∨ destType = "" then
        { reply := ResponseError "Missing parameter." "", trace := [], state := s }
      else
        let checkDest := resetCheckDest env user destType dest
        let ret := CheckVerificationCode s.records s.now checkDest code
        let pre := [Event.checkVerificationCode checkDest code ret]
        if ret ≠ "" then
          { reply := ResponseError ret "", trace := pre, state := s }
        else if destType = "email" then
          { reply := ResponseOk ""
            trace := pre ++ [Event.setUserField { user with Email := dest } "email" dest,
              Event.disableVerificationCode checkDest]
            state := { s with records := DisableVerificationCode s.records checkDest } }
        else if destType = "phone" then
          { reply := ResponseOk ""
            trace := pre ++ [Event.setUserField { user with Phone := dest } "phone" dest,
              Event.disableVerificationCode checkDest]
            state := { s with records := DisableVerificationCode s.records checkDest } }
        else
          { reply := ResponseError "Unknown type." "", trace := pre, state := s }

/-! ## Reading a run -/

/-- The reply is a success envelope: Standard status `ok`, or Lightweight code 200. -/
def Reply.isOk : Reply → Bool
  | Reply.std r => r.Status == "ok"
  | Reply.ott r => r.Code == OTT_CODE_OK
  | Reply.runtimePanic _ => false

/-- The event is a call of `object.AddUser`. -/
def Event.isAddUser : Event → Bool
  | Event.addUser _ _ => true
  | _ => false

/-- The event is a call of `object.DisableVerificationCode`. -/
def Event.isDisable : Event → Bool
  | Event.disableVerificationCode _ => true
  | _ => false

/-- The event is a call of `object.CheckVerificationCode`. -/
def Event.isCheck : Event → Bool
  | Event.checkVerificationCode _ _ _ => true
  | _ => false

/-- The event is a dispatch of a verification code. -/
def Event.isSend : Event → Bool
  | Event.sendVerificationCodeToEmail _ _ => true
  | Event.sendVerificationCodeToPhone _ _ => true
  | _ => false

/-- In the trace `t`, an occurrence of `a` comes strictly before an occurrence of `b`. -/
def occursBefore (a b : Event) : List Event → Bool
  | [] => false
  | e :: t => (e == a && t.contains b) || occursBefore a b t

/-! ## Sample collaborators -/

/-- A sample application: signup enabled or not, the rules of the "Email" and "ID"
items, and the list of visible items. -/
def sampleApplication (enable : Bool) (emailRule idRule : String) (visible : List String) :
    Application :=
  { Name := "app"
    Organization := "org"
    EnableSignUp := enable
    IsSignupItemVisible := fun item => visible.contains item
    GetSignupItemRule := fun item =>
      if item = "Email" then emailRule else if item = "ID" then idRule else ""
    HasPromptPage := false }

/-- A sample organization with phone prefix "1". -/
def sampleOrganization : Organization :=
  { Name := "org", DefaultAvatar := "avatar.png", PhonePrefix := "1", Tags := ["staff|guest"] }

/-- A sample account. -/
def sampleUser (id email phone : String) : User :=
  { Owner := "org", Name := "alice", CreatedTime := "", Id := id, Type_ := "normal-user"
    Password := "", DisplayName := "Alice", FirstName := "", LastName := "", Avatar := ""
    Email := email, Phone := phone, Address := [], Affiliation := "", IdCard := ""
    Region := "", Score := 0, IsAdmin := false, IsGlobalAdmin := false, IsForbidden := false
    IsDeleted := false, SignupApplication := "app", Properties := [], Karma := 0, Tag := "" }

/-- A sample mask: the first character, then stars. -/
def sampleMask (v : String) : String :=
  String.mk (v.data.take 1) ++ "***"

/-- A sample set of collaborators around one application `app`, known under every
id: storage answers `accepts` to `AddUser`, `provider` is the configured human-check
provider, `lastUser` the most recently created account, `known` the account of every
user id. The captcha accepts the answer "ok"; every dispatch succeeds. -/
def sampleEnv (app : Application) (accepts : Bool) (provider : Option String)
    (lastUser known : Option User) : Env :=
  { GetApplication := fun _ => some app
    GetOrganization := fun _ => some sampleOrganization
    GetApplicationByOrganizationName := fun _ => some app
    CheckUserSignup := fun _ _ _ _ _ _ _ _ _ _ => ""
    OTTCheckUserSignup := fun _ _ _ _ _ _ _ _ _ _ _ => ""
    GenerateId := "7f3a"
    GetCurrentTime := "2022-01-01T00:00:00Z"
    getInitScore := 2000
    GetLastUser := fun _ => lastUser
    GetUser := fun _ => known
    GetUserByFields := fun _ _ => known
    GetOrganizationByUser := fun _ => some sampleOrganization
    AddUser := fun _ => accepts
    StructToJson := fun u => u.Name
    GetDefaultHumanCheckProvider := provider
    VerifyCaptcha := fun _ key => key == "ok"
    GetMaskedEmail := sampleMask
    GetMaskedPhone := sampleMask
    IsEmailValid := fun e => e.data.contains '@'
    MakeInternationalPhone := fun p d => "+" ++ p ++ d
    GetOwnerAndNameFromId := fun _ => some ("admin", "org")
    GetIPFromRequest := "127.0.0.1"
    GetEmailProvider := fun _ => some "smtp"
    GetSmsProvider := fun _ => some "sms"
    SendVerificationCodeToEmail := fun _ _ _ _ _ => none
    SendVerificationCodeToPhone := fun _ _ _ _ _ => none
    newCode := "123456"
    codeLifetime := 300 }

/-- A sample Standard signup form for user "alice" of organization "org". -/
def sampleForm (email emailCode phone phoneCode : String) : RequestForm :=
  { Organization := "org", Username := "alice", Password := "pw", Name := "Alice"
    FirstName := "", LastName := "", Email := email, Phone := phone, Affiliation := ""
    IdCard := "", Region := "", Application := "app", EmailCode := emailCode
    PhoneCode := phoneCode, PhonePrefix := "1" }

/-- A sample Lightweight signup body. -/
def sampleOTTForm (type : Int) (pre0 : Option String) (identity code : String) :
    OTTSignUpRequest :=
  { AppId := "light-wallet", Type_ := type, Prefix := pre0, Identity := identity
    VerificationCode := code, Pwd := "pw", InvitationCode := none }

/-- A state without a session, holding the given records at time 100. -/
def anonymous (records : List VerificationRecord) : State :=
  { sessionUsername := "", records := records, now := 100 }

/-- A state with the session of "org/alice", holding the given records at time 100. -/
def signedIn (records : List VerificationRecord) : State :=
  { sessionUsername := "org/alice", records := records, now := 100 }

/-- An outstanding record: `code` issued to `dest`, valid until time 400. -/
def issued (dest code : String) : VerificationRecord :=
  { Receiver := dest, Code := code, Expiry := 400, IsUsed := false }

/-! ## Summaries of the contact verification stage -/

/-- The check `Signup` makes on the email channel (lines 143-149), if any. -/
def signupEmailChecks (s : State) (app : Application) (form : RequestForm) : List Event :=
  if app.IsSignupItemVisible "Email" = true ∧
      app.GetSignupItemRule "Email" ≠ "No verification" ∧ form.Email ≠ "" then
    [Event.checkVerificationCode form.Email form.EmailCode
      (CheckVerificationCode s.records s.now form.Email form.EmailCode)]
  else []

/-- The value of `checkPhone` after lines 151-159. -/
def signupCheckPhone (app : Application) (form : RequestForm) : String :=
  if app.IsSignupItemVisible "Phone" = true ∧ form.Phone ≠ "" then
    "+" ++ form.PhonePrefix ++ form.Phone
  else ""

/-- The check `Signup` makes on the phone channel (lines 151-159), if any. -/
def signupPhoneChecks (s : State) (app : Application) (form : RequestForm) : List Event :=
  if app.IsSignupItemVisible "Phone" = true ∧ form.Phone ≠ "" then
    [Event.checkVerificationCode ("+" ++ form.PhonePrefix ++ form.Phone) form.PhoneCode
      (CheckVerificationCode s.records s.now ("+" ++ form.PhonePrefix ++ form.Phone)
        form.PhoneCode)]
  else []

/-- Every check recorded in the list returned the empty success result. -/
def allChecksPassed (t : List Event) : Prop :=
  ∀ e ∈ t, ∃ dest code, e = Event.checkVerificationCode dest code ""

/-- A run that stopped before `object.AddUser`: nothing but checks was called, the
state is untouched and the reply is not a success envelope. -/
def AbortedEarly (s : State) (r : Result) : Prop :=
  r.state = s ∧ r.reply.isOk = false ∧ r.trace.all Event.isCheck = true

/-- The check `OTTSignup` makes (lines 275-298), if any. -/
def ottSignupChecks (s : State) (app : Application) (form : OTTSignUpRequest) : List Event :=
  if form.Type_ = 1 then
    if app.IsSignupItemVisible "Email" = true ∧
        app.GetSignupItemRule "Email" ≠ "No verification" ∧ form.Identity ≠ "" then
      [Event.checkVerificationCode form.Identity form.VerificationCode
        (CheckVerificationCode s.records s.now form.Identity form.VerificationCode)]
    else []
  else if form.Type_ = 0 then
    match form.Prefix with
    | some pre0 =>
      if app.IsSignupItemVisible "Phone" = true ∧ form.Identity ≠ "" ∧ pre0 ≠ "" then
        [Event.checkVerificationCode ("+" ++ pre0 ++ form.Identity) form.VerificationCode
          (CheckVerificationCode s.records s.now ("+" ++ pre0 ++ form.Identity)
            form.VerificationCode)]
      else []
    | none => []
  else []

/-- The value of `email` after lines 275-298 of `OTTSignup`. -/
def ottSignupEmail (app : Application) (form : OTTSignUpRequest) : String :=
  if form.Type_ = 1 ∧ app.IsSignupItemVisible "Email" = true ∧
      app.GetSignupItemRule "Email" ≠ "No verification" ∧ form.Identity ≠ "" then
    form.Identity
  else ""

/-- The value of `region` after lines 275-298 of `OTTSignup`. -/
def ottSignupRegion (app : Application) (form : OTTSignUpRequest) : String :=
  if form.Type_ = 0 then
    match form.Prefix with
    | some pre0 =>
      if app.IsSignupItemVisible "Phone" = true ∧ form.Identity ≠ "" ∧ pre0 ≠ "" then pre0
      else ""
    | none => ""
  else ""

/-- The value of `checkPhone` (and of `phone`) after lines 275-298 of `OTTSignup`. -/
def ottSignupCheckPhone (app : Application) (form : OTTSignUpRequest) : String :=
  if form.Type_ = 0 then
    match form.Prefix with
    | some pre0 =>
      if app.IsSignupItemVisible "Phone" = true ∧ form.Identity ≠ "" ∧ pre0 ≠ "" then
        "+" ++ pre0 ++ form.Identity
      else ""
    | none => ""
  else ""

/-! ## Sample runs -/

/-- An application that shows the username, email and phone items and verifies both contacts. -/
def verifyingApp : Application :=
  sampleApplication true "Normal" "" ["Username", "Email", "Phone"]

/-- An application that shows the email item under the rule "No verification" and hides
the phone and username items. -/
def trustingApp : Application :=
  sampleApplication true "No verification" "" ["Email"]

/-- An application with signup disabled. -/
def closedApp : Application :=
  sampleApplication false "" "" []

/-- Collaborators around `verifyingApp`; storage accepts. -/
def verifyingEnv : Env :=
  sampleEnv verifyingApp true none none none

/-- Collaborators around `verifyingApp`; storage rejects every account. -/
def rejectingEnv : Env :=
  sampleEnv verifyingApp false none none none

/-- Collaborators around `trustingApp`; storage accepts. -/
def trustingEnv : Env :=
  sampleEnv trustingApp true none none none

/-- Collaborators around `closedApp`. -/
def closedEnv : Env :=
  sampleEnv closedApp true none none none

/-- Codes issued to the email "a@b.c" and to the phone "+15551234". -/
def issuedCodes : List VerificationRecord :=
  [issued "a@b.c" "1234", issued "+15551234" "5678"]

/-- A Standard signup with email "a@b.c", phone "5551234" and the codes issued to them. -/
def verifiedForm : RequestForm :=
  sampleForm "a@b.c" "1234" "5551234" "5678"

/-- A Standard signup with email "a@b.c" and phone "5551234" that submits no code. -/
def codelessForm : RequestForm :=
  sampleForm "a@b.c" "" "5551234" ""

/-- An application under the "Incremental" identifier rule; the username item is hidden. -/
def incrementalApp : Application :=
  sampleApplication true "No verification" "Incremental" ["Email"]

/-- Collaborators around `incrementalApp` for an organization whose most recently
created account is `lastUser`. -/
def incrementalEnv (lastUser : Option User) : Env :=
  sampleEnv incrementalApp true none lastUser none

/-- The account of the first signup of the sample organization under the incremental rule. -/
def firstAccount : User :=
  signupUser (incrementalEnv none) incrementalApp sampleOrganization codelessForm "0"

/-- The account of the signup that follows `firstAccount`. -/
def secondAccount : User :=
  signupUser (incrementalEnv (some firstAccount)) incrementalApp sampleOrganization
    codelessForm "1"

/-- The human verification gate as the spec words it (`verifyHuman`): if an external
human-check provider is configured, delegate to it; otherwise fall back to the built-in
challenge/response check. `providerVerify` is the verdict of the external provider. -/
def verifyHumanSpec (provider : Option String)
    (providerVerify : String → String → String → Bool) (captcha : String → String → Bool)
    (challengeId challengeAnswer : String) : Bool :=
  match provider with
  | some p => providerVerify p challengeId challengeAnswer
  | none => captcha challengeId challengeAnswer

/-- Collaborators around `verifyingApp` with the external human-check provider
"aliyun-captcha" configured. -/
def providerEnv : Env :=
  sampleEnv verifyingApp true (some "aliyun-captcha") none none

/-- Collaborators around `verifyingApp` that know the account of "alice", with the
given stored email and phone, under every user id. -/
def knownEnv (email phone : String) : Env :=
  sampleEnv verifyingApp true none none (some (sampleUser "7" email phone))

/-- A send-verification-code request of organization "admin/org" that answers the
captcha with `checkKey`. -/
def sampleSendForm (type dest checkKey checkUser : String) : SendVerificationCodeForm :=
  { type_ := type, dest := dest, organizationId := "admin/org", checkType := "captcha"
    checkId := "challenge-1", checkKey := checkKey, checkUser := checkUser }

/-- A Lightweight send-verification-code body. -/
def sampleOTTSendBody (type : Int) (pre0 : Option String) (dest : String) :
    SendVerificationCodeRequest :=
  { AppId := "light-wallet", Purpose := 0, Type_ := type, Prefix := pre0, Dest := dest }

/-- A Standard signup with no email and the phone "+15551234", written with its
international prefix, submitting the code "123456". -/
def plusPhoneForm : RequestForm :=
  sampleForm "" "" "+15551234" "123456"

/-- The state after `SendVerificationCode` has issued a code for the phone "+15551234"
of `plusPhoneForm`. -/
def afterPlusPhoneSend : State :=
  (SendVerificationCode verifyingEnv (anonymous [])
    (sampleSendForm "phone" "+15551234" "ok" "")).state

/-- A Lightweight signup on the phone channel: prefix "1", identity "5551234" and the
code issued to "+15551234". -/
def phoneOTTForm : OTTSignUpRequest :=
  sampleOTTForm 0 (some "1") "5551234" "5678"

/-- The account `OTTSignup` builds for `phoneOTTForm`. -/
def phoneAccount : User :=
  ottSignupUser verifyingEnv verifyingApp sampleOrganization phoneOTTForm "7f3a" ""
    "+15551234" "1"

/-- A Lightweight signup on the email channel: identity "a@b.c" and the code issued
to it. -/
def emailOTTForm : OTTSignUpRequest :=
  sampleOTTForm 1 none "a@b.c" "1234"

/-- The account `OTTSignup` builds for `emailOTTForm`. -/
def emailAccount : User :=
  ottSignupUser verifyingEnv verifyingApp sampleOrganization emailOTTForm "7f3a" "a@b.c"
    "" ""

/-! ## Theorems -/

/-! ### Traces -/

theorem occursBefore_iff (a b : Event) (t : List Event) :
    occursBefore a b t = true ↔ ∃ l1 l2, t = l1 ++ a :: l2 ∧ b ∈ l2 := by
  induction t with
  | nil => simp [occursBefore]
  | cons e t ih =>
    simp only [occursBefore, Bool.or_eq_true, Bool.and_eq_true, beq_iff_eq, ih]
    constructor
    · rintro (⟨rfl, hb⟩ | ⟨l1, l2, rfl, hb⟩)
      · exact ⟨[], t, rfl, by simpa using hb⟩
      · exact ⟨e :: l1, l2, rfl, hb⟩
    · rintro ⟨l1, l2, h, hb⟩
      cases l1 with
      | nil =>
        simp only [List.nil_append, List.cons.injEq] at h
        obtain ⟨rfl, rfl⟩ := h
        exact Or.inl ⟨rfl, by simpa using hb⟩
      | cons x l1 =>
        simp only [List.cons_append, List.cons.injEq] at h
        obtain ⟨rfl, rfl⟩ := h
        exact Or.inr ⟨l1, l2, rfl, hb⟩

theorem signupCreate_run (env : Env) (s : State) (app : Application)
    (organization : Option Organization) (form : RequestForm) (checkPhone : String)
    (pre : List Event) (hpre : pre.all Event.isCheck = true) :
    AbortedEarly s (signupCreate env s app organization form checkPhone pre) ∨
    ∃ org id, organization = some org ∧ signupAllocateId env app form = some id ∧
      signupCreate env s app organization form checkPhone pre =
        persistUser env s app (signupUser env app org form id) form.Email checkPhone
          (signupRejected env) ResponseOk pre := by
  unfold signupCreate
  split
  · exact Or.inl ⟨rfl, rfl, hpre⟩
  · split
    · exact Or.inl ⟨rfl, rfl, hpre⟩
    · exact Or.inr ⟨_, _, rfl, by assumption, rfl⟩

theorem signupPhone_run (env : Env) (s : State) (app : Application)
    (organization : Option Organization) (form : RequestForm)
    (pre : List Event) (hpre : pre.all Event.isCheck = true) (hpass : allChecksPassed pre) :
    AbortedEarly s (signupPhone env s app organization form pre) ∨
    ∃ org id, organization = some org ∧ signupAllocateId env app form = some id ∧
      allChecksPassed (pre ++ signupPhoneChecks s app form) ∧
      signupPhone env s app organization form pre =
        persistUser env s app (signupUser env app org form id) form.Email
          (signupCheckPhone app form) (signupRejected env) ResponseOk
          (pre ++ signupPhoneChecks s app form) := by
  unfold signupPhone signupPhoneChecks signupCheckPhone
  split
  · rename_i hc
    simp only
    split
    · left
      refine ⟨rfl, ?_, ?_⟩
      · simp [Reply.isOk, ResponseError]
      · simpa [Event.isCheck] using hpre
    · rename_i hres
      have hres2 := not_not.mp hres
      rcases signupCreate_run env s app organization form ("+" ++ form.PhonePrefix ++ form.Phone)
        (pre ++ [Event.checkVerificationCode ("+" ++ form.PhonePrefix ++ form.Phone) form.PhoneCode
          (CheckVerificationCode s.records s.now ("+" ++ form.PhonePrefix ++ form.Phone)
            form.PhoneCode)]) (by simpa [Event.isCheck] using hpre) with h | ⟨org, id, h1, h2, h3⟩
      · exact Or.inl h
      · right
        refine ⟨org, id, h1, h2, ?_, h3⟩
        intro e he
        rcases List.mem_append.mp he with he | he
        · exact hpass e he
        · simp only [List.mem_singleton] at he
          exact ⟨_, _, by rw [he, hres2]⟩
  · rcases signupCreate_run env s app organization form "" pre hpre with h | ⟨org, id, h1, h2, h3⟩
    · exact Or.inl h
    · right
      refine ⟨org, id, h1, h2, ?_, ?_⟩
      · simpa using hpass
      · simpa using h3

theorem Signup_run (env : Env) (s : State) (body : Except String RequestForm) :
    AbortedEarly s (Signup env s body) ∨
    ∃ form app org id, body = Except.ok form ∧ s.sessionUsername = "" ∧
      env.GetApplication ("admin/" ++ form.Application) = some app ∧
      app.EnableSignUp = true ∧
      env.GetOrganization ("admin/" ++ form.Organization) = some org ∧
      signupAllocateId env app form = some id ∧
      allChecksPassed (signupEmailChecks s app form ++ signupPhoneChecks s app form) ∧
      Signup env s body =
        persistUser env s app (signupUser env app org form id) form.Email
          (signupCheckPhone app form) (signupRejected env) ResponseOk
          (signupEmailChecks s app form ++ signupPhoneChecks s app form) := by
  unfold Signup
  split
  · exact Or.inl ⟨rfl, by simp [Reply.isOk, ResponseError], rfl⟩
  · rename_i hsess
    have hsess2 := not_not.mp hsess
    split
    · exact Or.inl ⟨rfl, rfl, rfl⟩
    · rename_i form
      split
      · exact Or.inl ⟨rfl, rfl, rfl⟩
      · rename_i app happ
        split
        · exact Or.inl ⟨rfl, by simp [Reply.isOk, ResponseError], rfl⟩
        · rename_i hen
          have hen2 : app.EnableSignUp = true := by simpa using hen
          simp only
          split
          · exact Or.inl ⟨rfl, by simp [Reply.isOk, ResponseError], rfl⟩
          · split
            · rename_i hc
              split
              · exact Or.inl ⟨rfl, by simp [Reply.isOk, ResponseError], by simp [Event.isCheck]⟩
              · rename_i hres
                have hres2 := not_not.mp hres
                rcases signupPhone_run env s app
                  (env.GetOrganization ("admin/" ++ form.Organization)) form
                  [Event.checkVerificationCode form.Email form.EmailCode
                    (CheckVerificationCode s.records s.now form.Email form.EmailCode)]
                  (by simp [Event.isCheck])
                  (by
                    intro e he
                    simp only [List.mem_singleton] at he
                    exact ⟨_, _, by rw [he, hres2]⟩) with h | ⟨org, id, h1, h2, h3, h4⟩
                · exact Or.inl h
                · right
                  refine ⟨form, app, org, id, rfl, hsess2, happ, hen2, h1, h2, ?_, ?_⟩
                  · simpa [signupEmailChecks, hc] using h3
                  · simpa [signupEmailChecks, hc] using h4
            · rename_i hc
              rcases signupPhone_run env s app
                (env.GetOrganization ("admin/" ++ form.Organization)) form []
                (by simp) (by intro e he; simp at he) with h | ⟨org, id, h1, h2, h3, h4⟩
              · exact Or.inl h
              · right
                refine ⟨form, app, org, id, rfl, hsess2, happ, hen2, h1, h2, ?_, ?_⟩
                · simpa [signupEmailChecks, hc] using h3
                · simpa [signupEmailChecks, hc] using h4

theorem ottSignupCreate_run (env : Env) (s : State) (app : Application)
    (organization : Option Organization) (form : OTTSignUpRequest)
    (email phone region checkPhone : String)
    (pre : List Event) (hpre : pre.all Event.isCheck = true) :
    AbortedEarly s (ottSignupCreate env s app organization form email phone region checkPhone pre) ∨
    ∃ org, organization = some org ∧
      ottSignupCreate env s app organization form email phone region checkPhone pre =
        persistUser env s app
          (ottSignupUser env app org form env.GenerateId email phone region)
          form.Identity checkPhone (ottSignupRejected env)
          (fun userId => OTTResponseOk (OTTBody.register userId)) pre := by
  unfold ottSignupCreate
  split
  · exact Or.inl ⟨rfl, rfl, hpre⟩
  · exact Or.inr ⟨_, rfl, rfl⟩

theorem OTTSignup_run (env : Env) (s : State) (body : Except String OTTSignUpRequest) :
    AbortedEarly s (OTTSignup env s body) ∨
    ∃ form app org, body = Except.ok form ∧ s.sessionUsername = "" ∧
      env.GetApplication ("admin/" ++ form.AppId) = some app ∧
      app.EnableSignUp = true ∧
      env.GetOrganization ("admin/" ++ OTT_ORGANIZATION_ID) = some org ∧
      allChecksPassed (ottSignupChecks s app form) ∧
      OTTSignup env s body =
        persistUser env s app
          (ottSignupUser env app org form env.GenerateId (ottSignupEmail app form)
            (ottSignupCheckPhone app form) (ottSignupRegion app form))
          form.Identity (ottSignupCheckPhone app form) (ottSignupRejected env)
          (fun userId => OTTResponseOk (OTTBody.register userId))
          (ottSignupChecks s app form) := by
  have hcode : ∀ c msg, c ≠ OTT_CODE_OK → (OTTResponseError c msg).isOk = false := by
    intro c msg hc
    simpa [Reply.isOk, OTTResponseError] using hc
  unfold OTTSignup
  split
  · exact Or.inl ⟨rfl, hcode _ _ (by decide), rfl⟩
  · rename_i hsess
    have hsess2 := not_not.mp hsess
    split
    · exact Or.inl ⟨rfl, hcode _ _ (by decide), rfl⟩
    · rename_i form
      split
      · exact Or.inl ⟨rfl, rfl, rfl⟩
      · rename_i app happ
        split
        · exact Or.inl ⟨rfl, hcode _ _ (by decide), rfl⟩
        · rename_i hen
          have hen2 : app.EnableSignUp = true := by simpa using hen
          simp only
          split
          · exact Or.inl ⟨rfl, hcode _ _ (by decide), rfl⟩
          · split
            · rename_i ht
              split
              · rename_i hc
                split
                · exact Or.inl ⟨rfl, hcode _ _ (by decide), by simp [Event.isCheck]⟩
                · rename_i hres
                  have hres2 := not_not.mp hres
                  rcases ottSignupCreate_run env s app
                    (env.GetOrganization ("admin/" ++ OTT_ORGANIZATION_ID)) form
                    form.Identity "" "" ""
                    [Event.checkVerificationCode form.Identity form.VerificationCode
                      (CheckVerificationCode s.records s.now form.Identity form.VerificationCode)]
                    (by simp [Event.isCheck]) with h | ⟨org, h1, h2⟩
                  · exact Or.inl h
                  · right
                    refine ⟨form, app, org, rfl, hsess2, happ, hen2, h1, ?_, ?_⟩
                    · intro e he
                      rw [ottSignupChecks, if_pos ht, if_pos hc, List.mem_singleton] at he
                      exact ⟨_, _, by rw [he, hres2]⟩
                    · simpa [ottSignupChecks, ottSignupEmail, ottSignupCheckPhone, ottSignupRegion,
                        ht, hc] using h2
              · rename_i hc
                rcases ottSignupCreate_run env s app
                  (env.GetOrganization ("admin/" ++ OTT_ORGANIZATION_ID)) form "" "" "" "" []
                  (by simp) with h | ⟨org, h1, h2⟩
                · exact Or.inl h
                · right
                  refine ⟨form, app, org, rfl, hsess2, happ, hen2, h1, ?_, ?_⟩
                  · intro e he
                    simp [ottSignupChecks, ht, hc] at he
                  · simpa [ottSignupChecks, ottSignupEmail, ottSignupCheckPhone, ottSignupRegion,
                      ht, hc] using h2
            · rename_i ht
              have fallthrough :
                  AbortedEarly s (ottSignupCreate env s app
                    (env.GetOrganization ("admin/" ++ OTT_ORGANIZATION_ID)) form "" "" "" "" []) ∨
                  ∃ org, env.GetOrganization ("admin/" ++ OTT_ORGANIZATION_ID) = some org ∧
                    ottSignupCreate env s app
                      (env.GetOrganization ("admin/" ++ OTT_ORGANIZATION_ID)) form "" "" "" "" [] =
                    persistUser env s app
                      (ottSignupUser env app org form env.GenerateId "" "" "")
                      form.Identity "" (ottSignupRejected env)
                      (fun userId => OTTResponseOk (OTTBody.register userId)) [] :=
                ottSignupCreate_run env s app _ form "" "" "" "" [] (by simp)
              split
              · rename_i ht0
                split
                · rename_i pre0 hpre0
                  split
                  · rename_i hc
                    split
                    · exact Or.inl ⟨rfl, hcode _ _ (by decide), by simp [Event.isCheck]⟩
                    · rename_i hres
                      have hres2 := not_not.mp hres
                      rcases ottSignupCreate_run env s app
                        (env.GetOrganization ("admin/" ++ OTT_ORGANIZATION_ID)) form
                        "" ("+" ++ pre0 ++ form.Identity) pre0 ("+" ++ pre0 ++ form.Identity)
                        [Event.checkVerificationCode ("+" ++ pre0 ++ form.Identity)
                          form.VerificationCode
                          (CheckVerificationCode s.records s.now ("+" ++ pre0 ++ form.Identity)
                            form.VerificationCode)]
                        (by simp [Event.isCheck]) with h | ⟨org, h1, h2⟩
                      · exact Or.inl h
                      · right
                        refine ⟨form, app, org, rfl, hsess2, happ, hen2, h1, ?_, ?_⟩
                        · intro e he
                          rw [ottSignupChecks, if_neg ht, if_pos ht0, hpre0] at he
                          simp only [if_pos hc, List.mem_singleton] at he
                          exact ⟨_, _, by rw [he, hres2]⟩
                        · simpa [ottSignupChecks, ottSignupEmail, ottSignupCheckPhone,
                            ottSignupRegion, ht, ht0, hpre0, hc] using h2
                  · rename_i hc
                    rcases fallthrough with h | ⟨org, h1, h2⟩
                    · exact Or.inl h
                    · right
                      refine ⟨form, app, org, rfl, hsess2, happ, hen2, h1, ?_, ?_⟩
                      · intro e he
                        simp [ottSignupChecks, ht, ht0, hpre0, hc] at he
                      · simpa [ottSignupChecks, ottSignupEmail, ottSignupCheckPhone,
                          ottSignupRegion, ht, ht0, hpre0, hc] using h2
                · rename_i hpre0
                  rcases fallthrough with h | ⟨org, h1, h2⟩
                  · exact Or.inl h
                  · right
                    refine ⟨form, app, org, rfl, hsess2, happ, hen2, h1, ?_, ?_⟩
                    · intro e he
                      simp [ottSignupChecks, ht, ht0, hpre0] at he
                    · simpa [ottSignupChecks, ottSignupEmail, ottSignupCheckPhone,
                        ottSignupRegion, ht, ht0, hpre0] using h2
              · rename_i ht0
                rcases fallthrough with h | ⟨org, h1, h2⟩
                · exact Or.inl h
                · right
                  refine ⟨form, app, org, rfl, hsess2, happ, hen2, h1, ?_, ?_⟩
                  · intro e he
                    simp [ottSignupChecks, ht, ht0] at he
                  · simpa [ottSignupChecks, ottSignupEmail, ottSignupCheckPhone,
                      ottSignupRegion, ht, ht0] using h2

theorem persistUser_rejected (env : Env) (s : State) (app : Application) (user : User)
    (d1 d2 : String) (rej : User → Reply) (acc : String → Reply) (pre : List Event)
    (h : env.AddUser user = false) :
    persistUser env s app user d1 d2 rej acc pre =
      { reply := rej user, trace := pre ++ [Event.addUser user false], state := s } := by
  simp [persistUser, h]

theorem persistUser_accepted (env : Env) (s : State) (app : Application) (user : User)
    (d1 d2 : String) (rej : User → Reply) (acc : String → Reply) (pre : List Event)
    (h : env.AddUser user = true) :
    persistUser env s app user d1 d2 rej acc pre =
      { reply := acc (user.Owner ++ "/" ++ user.Name)
        trace := pre ++ [Event.addUser user true, Event.addUserToOriginalDatabase user] ++
          (if app.HasPromptPage then [Event.setSessionUsername user.GetId] else []) ++
          [Event.disableVerificationCode d1, Event.disableVerificationCode d2,
           Event.addRecord app.Organization user.Name]
        state :=
          { sessionUsername := if app.HasPromptPage then user.GetId else s.sessionUsername
            records := DisableVerificationCode (DisableVerificationCode s.records d1) d2
            now := s.now } } := by
  simp [persistUser, h]

/-- A list of checks holds no other kind of event. -/
theorem not_mem_of_all_isCheck (t : List Event) (h : t.all Event.isCheck = true) (e : Event)
    (he : e.isCheck = false) : e ∉ t := by
  intro hmem
  have := List.all_eq_true.mp h e hmem
  rw [he] at this
  exact Bool.false_ne_true this

theorem all_isCheck_of_passed (t : List Event) (h : allChecksPassed t) :
    t.all Event.isCheck = true := by
  rw [List.all_eq_true]
  intro e he
  obtain ⟨d, c, rfl⟩ := h e he
  rfl

/-- What the trace of `persistUser` says about `object.AddUser` and the invalidations,
when everything before it was a check. -/
theorem persistUser_trace (env : Env) (s : State) (app : Application) (user : User)
    (d1 d2 : String) (rej : User → Reply) (acc : String → Reply) (pre : List Event)
    (hpre : pre.all Event.isCheck = true) (hacc : ∀ x, (acc x).isOk = true)
    (hrej : ∀ u, (rej u).isOk = false) :
    let r := persistUser env s app user d1 d2 rej acc pre
    (∀ u b, Event.addUser u b ∈ r.trace → u = user ∧ b = env.AddUser user) ∧
    (env.AddUser user = false →
      r.reply = rej user ∧ r.trace.any Event.isDisable = false ∧ r.state = s) ∧
    (env.AddUser user = true →
      r.reply = acc (user.Owner ++ "/" ++ user.Name) ∧ Event.addUser user true ∈ r.trace ∧
      (∀ e ∈ pre, occursBefore e (Event.addUser user true) r.trace = true) ∧
      (∀ d, Event.disableVerificationCode d ∈ r.trace →
        occursBefore (Event.addUser user true) (Event.disableVerificationCode d) r.trace = true)) ∧
    (r.reply.isOk = true ↔ env.AddUser user = true) := by
  intro r
  have hno : ∀ e, e.isCheck = false → e ∉ pre := not_mem_of_all_isCheck pre hpre
  cases h : env.AddUser user with
  | false =>
    have hr : r = { reply := rej user, trace := pre ++ [Event.addUser user false], state := s } :=
      persistUser_rejected env s app user d1 d2 rej acc pre h
    refine ⟨?_, ?_, ?_, ?_⟩
    · intro u b hm
      rw [hr] at hm
      simp only [List.mem_append, List.mem_singleton, Event.addUser.injEq] at hm
      rcases hm with hm | hm
      · exact absurd hm (hno _ rfl)
      · exact hm
    · intro _
      rw [hr]
      refine ⟨rfl, ?_, rfl⟩
      rw [Bool.eq_false_iff]
      intro hany
      obtain ⟨e, he, hd⟩ := List.any_eq_true.mp hany
      simp only [List.mem_append, List.mem_singleton] at he
      rcases he with he | he
      · have := List.all_eq_true.mp hpre e he
        cases e <;> simp_all [Event.isCheck, Event.isDisable]
      · subst he
        simp [Event.isDisable] at hd
    · intro hc
      exact absurd hc (by simp)
    · rw [hr]
      simp [hrej]
  | true =>
    have hr := persistUser_accepted env s app user d1 d2 rej acc pre h
    obtain ⟨rest, hr2, hrest⟩ : ∃ rest, r.trace = pre ++ Event.addUser user true :: rest ∧
        ∀ u b, Event.addUser u b ∉ rest := by
      refine ⟨[Event.addUserToOriginalDatabase user] ++
          (if app.HasPromptPage then [Event.setSessionUsername user.GetId] else []) ++
          [Event.disableVerificationCode d1, Event.disableVerificationCode d2,
           Event.addRecord app.Organization user.Name], ?_, ?_⟩
      · show (persistUser env s app user d1 d2 rej acc pre).trace = _
        rw [hr]
        simp
      · intro u b
        cases app.HasPromptPage <;> simp
    refine ⟨?_, ?_, ?_, ?_⟩
    · intro u b hm
      rw [hr2] at hm
      simp only [List.mem_append, List.mem_cons, Event.addUser.injEq] at hm
      rcases hm with hm | hm | hm
      · exact absurd hm (hno _ rfl)
      · exact hm
      · exact absurd hm (hrest u b)
    · intro hc
      exact absurd hc (by simp)
    · intro _
      refine ⟨?_, ?_, ?_, ?_⟩
      · show (persistUser env s app user d1 d2 rej acc pre).reply = _
        rw [hr]
      · rw [hr2]
        simp
      · intro e he
        rw [occursBefore_iff]
        obtain ⟨l1, l2, hl⟩ := List.append_of_mem he
        exact ⟨l1, l2 ++ Event.addUser user true :: rest, by rw [hr2, hl]; simp, by simp⟩
      · intro d hd
        rw [occursBefore_iff]
        refine ⟨pre, rest, hr2, ?_⟩
        rw [hr2] at hd
        simp only [List.mem_append, List.mem_cons, reduceCtorEq, false_or] at hd
        rcases hd with hd | hd
        · exact absurd hd (hno _ rfl)
        · exact hd
    · show (persistUser env s app user d1 d2 rej acc pre).reply.isOk = true ↔ _
      rw [hr]
      simp [hacc]

/-- The checks in the trace of `persistUser` are those made before it. -/
theorem persistUser_checks (env : Env) (s : State) (app : Application) (user : User)
    (d1 d2 : String) (rej : User → Reply) (acc : String → Reply) (pre : List Event)
    (e : Event) (he : e.isCheck = true)
    (hmem : e ∈ (persistUser env s app user d1 d2 rej acc pre).trace) : e ∈ pre := by
  unfold persistUser at hmem
  cases e <;> simp [Event.isCheck] at he
  split at hmem
  · simpa using hmem
  · cases hp : app.HasPromptPage <;> simpa [hp] using hmem

/-! ### C1: signup disabled -/

/-- C1 (as amended). For a request that names an application whose `EnableSignUp` is
false: a caller without a session gets the signup-disabled condition (Standard: the
error "The application does not allow to sign up new account"; Lightweight: code 207),
a caller with a session gets the already-signed-in condition (Standard: "Please sign
out first before signing up"; Lightweight: code 210); in both cases `object.AddUser`
is not called, so no account is constructed or persisted. (The trace, which lists the
calls with an effect, is empty, and the state is unchanged.) -/
theorem signup_disabled_aborts (env : Env) (s : State) (form : RequestForm)
    (ottForm : OTTSignUpRequest) (app ottApp : Application)
    (happ : env.GetApplication ("admin/" ++ form.Application) = some app)
    (hdis : app.EnableSignUp = false)
    (hottApp : env.GetApplication ("admin/" ++ ottForm.AppId) = some ottApp)
    (hottDis : ottApp.EnableSignUp = false) :
    (s.sessionUsername = "" →
      (Signup env s (Except.ok form)).reply =
        ResponseError "The application does not allow to sign up new account" "" ∧
      (OTTSignup env s (Except.ok ottForm)).reply =
        OTTResponseError 207 "The application does not allow to sign up new account") ∧
    (s.sessionUsername ≠ "" →
      (Signup env s (Except.ok form)).reply =
        ResponseError "Please sign out first before signing up" s.sessionUsername ∧
      (OTTSignup env s (Except.ok ottForm)).reply =
        OTTResponseError 210 "Please sign out first before signing up") ∧
    (∀ u b, Event.addUser u b ∉ (Signup env s (Except.ok form)).trace) ∧
    (∀ u b, Event.addUser u b ∉ (OTTSignup env s (Except.ok ottForm)).trace) ∧
    (Signup env s (Except.ok form)).trace = [] ∧
    (OTTSignup env s (Except.ok ottForm)).trace = [] ∧
    (Signup env s (Except.ok form)).state = s ∧
    (OTTSignup env s (Except.ok ottForm)).state = s := by
  unfold Signup OTTSignup
  simp only [happ, hdis, hottApp, hottDis]
  by_cases hs : s.sessionUsername = ""
  · simp [hs, OTT_CODE_APPLICATION_NO_SIGNUP]
  · simp [hs, OTT_CODE_NEED_SIGN_OUT]

/-- C1 at a concrete input: an application with signup disabled, no session. -/
theorem signup_disabled_aborts_witness :
    (Signup (sampleEnv (sampleApplication false "" "" []) true none none none) (anonymous [])
        (Except.ok (sampleForm "a@b.c" "" "" ""))).reply =
      ResponseError "The application does not allow to sign up new account" "" ∧
    (OTTSignup (sampleEnv (sampleApplication false "" "" []) true none none none) (anonymous [])
        (Except.ok (sampleOTTForm 1 none "a@b.c" ""))).reply =
      OTTResponseError 207 "The application does not allow to sign up new account" :=
  (signup_disabled_aborts (sampleEnv (sampleApplication false "" "" []) true none none none)
    (anonymous []) (sampleForm "a@b.c" "" "" "") (sampleOTTForm 1 none "a@b.c" "")
    (sampleApplication false "" "" []) (sampleApplication false "" "" [])
    rfl rfl rfl rfl).1 rfl

/-- C1 as stated fails: the application has signup disabled, yet a caller with an
active session is answered with the already-signed-in condition, not the
signup-disabled one. -/
theorem signup_disabled_counterexample :
    ((sampleEnv (sampleApplication false "" "" []) true none none none).GetApplication
        "admin/app").map (fun a => a.EnableSignUp) = some false ∧
    (Signup (sampleEnv (sampleApplication false "" "" []) true none none none) (signedIn [])
        (Except.ok (sampleForm "a@b.c" "" "" ""))).reply =
      ResponseError "Please sign out first before signing up" "org/alice" ∧
    (Signup (sampleEnv (sampleApplication false "" "" []) true none none none) (signedIn [])
        (Except.ok (sampleForm "a@b.c" "" "" ""))).reply ≠
      ResponseError "The application does not allow to sign up new account" "" ∧
    (OTTSignup (sampleEnv (sampleApplication false "" "" []) true none none none) (signedIn [])
        (Except.ok (sampleOTTForm 1 none "a@b.c" ""))).reply =
      OTTResponseError 210 "Please sign out first before signing up" := by
  decide

/-! ### C2: checks precede persistence -/

/-- C2 (as amended). For every Standard signup that persists an account: the account's
Email and Phone are the submitted ones; if the "Email" item is visible, its rule is not
"No verification" and the email is non-empty, then `CheckVerificationCode` was called
on that email with the submitted email code, returned the empty success result, and
that call precedes `AddUser`; if the "Phone" item is visible and the phone is non-empty,
the same holds for the destination "+" ++ prefix ++ phone and the submitted phone code.
Every check the run made succeeded and precedes `AddUser`. -/
theorem signup_checks_before_persist (env : Env) (s : State) (body : Except String RequestForm)
    (user : User) (h : Event.addUser user true ∈ (Signup env s body).trace) :
    ∃ form app, body = Except.ok form ∧
      env.GetApplication ("admin/" ++ form.Application) = some app ∧
      user.Email = form.Email ∧ user.Phone = form.Phone ∧
      (app.IsSignupItemVisible "Email" = true →
        app.GetSignupItemRule "Email" ≠ "No verification" → user.Email ≠ "" →
        CheckVerificationCode s.records s.now user.Email form.EmailCode = "" ∧
        occursBefore (Event.checkVerificationCode user.Email form.EmailCode "")
          (Event.addUser user true) (Signup env s body).trace = true) ∧
      (app.IsSignupItemVisible "Phone" = true → user.Phone ≠ "" →
        CheckVerificationCode s.records s.now ("+" ++ form.PhonePrefix ++ user.Phone)
          form.PhoneCode = "" ∧
        occursBefore
          (Event.checkVerificationCode ("+" ++ form.PhonePrefix ++ user.Phone) form.PhoneCode "")
          (Event.addUser user true) (Signup env s body).trace = true) ∧
      (∀ dest code result,
        Event.checkVerificationCode dest code result ∈ (Signup env s body).trace →
        result = "" ∧
        occursBefore (Event.checkVerificationCode dest code result) (Event.addUser user true)
          (Signup env s body).trace = true) := by
  rcases Signup_run env s body with ⟨_, _, hall⟩ | ⟨form, app, org, id, hb, _, happ, _, _, _, hpass, hrun⟩
  · exact absurd h (not_mem_of_all_isCheck _ hall _ rfl)
  · have hpre := all_isCheck_of_passed _ hpass
    obtain ⟨hadd, _, hok, _⟩ := persistUser_trace env s app (signupUser env app org form id)
      form.Email (signupCheckPhone app form) (signupRejected env) ResponseOk
      (signupEmailChecks s app form ++ signupPhoneChecks s app form) hpre
      (fun _ => rfl) (fun _ => by simp [signupRejected, ResponseError, Reply.isOk])
    rw [← hrun] at hadd hok
    obtain ⟨hu, hb2⟩ := hadd user true h
    obtain ⟨_, _, hbefore, _⟩ := hok hb2.symm
    rw [← hu] at hbefore
    have hemail : user.Email = form.Email := by rw [hu]; rfl
    have hphone : user.Phone = form.Phone := by rw [hu]; rfl
    refine ⟨form, app, hb, happ, hemail, hphone, ?_, ?_, ?_⟩
    · intro hv hr hne
      have hmem : Event.checkVerificationCode form.Email form.EmailCode
          (CheckVerificationCode s.records s.now form.Email form.EmailCode) ∈
          signupEmailChecks s app form ++ signupPhoneChecks s app form := by
        rw [signupEmailChecks, if_pos ⟨hv, hr, hemail ▸ hne⟩]
        simp
      obtain ⟨d, c, hdc⟩ := hpass _ hmem
      have hres : CheckVerificationCode s.records s.now form.Email form.EmailCode = "" := by
        simp only [Event.checkVerificationCode.injEq] at hdc
        exact hdc.2.2
      rw [hemail]
      refine ⟨hres, ?_⟩
      have := hbefore _ hmem
      rwa [hres] at this
    · intro hv hne
      have hmem : Event.checkVerificationCode ("+" ++ form.PhonePrefix ++ form.Phone)
          form.PhoneCode
          (CheckVerificationCode s.records s.now ("+" ++ form.PhonePrefix ++ form.Phone)
            form.PhoneCode) ∈
          signupEmailChecks s app form ++ signupPhoneChecks s app form := by
        rw [signupPhoneChecks, if_pos ⟨hv, hphone ▸ hne⟩]
        simp
      obtain ⟨d, c, hdc⟩ := hpass _ hmem
      have hres : CheckVerificationCode s.records s.now ("+" ++ form.PhonePrefix ++ form.Phone)
          form.PhoneCode = "" := by
        simp only [Event.checkVerificationCode.injEq] at hdc
        exact hdc.2.2
      rw [hphone]
      refine ⟨hres, ?_⟩
      have := hbefore _ hmem
      rwa [hres] at this
    · intro dest code result hmem
      rw [hrun] at hmem
      have hin := persistUser_checks env s app _ _ _ _ _ _
        (Event.checkVerificationCode dest code result) rfl hmem
      obtain ⟨d, c, hdc⟩ := hpass _ hin
      simp only [Event.checkVerificationCode.injEq] at hdc
      exact ⟨hdc.2.2, hbefore _ hin⟩

/-- C2 at a concrete input: both channels are verified, and both checks precede the
call of `AddUser` that persists the account. -/
theorem signup_checks_before_persist_witness :
    Event.addUser (signupUser verifyingEnv verifyingApp sampleOrganization verifiedForm "7f3a")
        true ∈ (Signup verifyingEnv (anonymous issuedCodes) (Except.ok verifiedForm)).trace ∧
    occursBefore (Event.checkVerificationCode "a@b.c" "1234" "")
      (Event.addUser (signupUser verifyingEnv verifyingApp sampleOrganization verifiedForm "7f3a")
        true)
      (Signup verifyingEnv (anonymous issuedCodes) (Except.ok verifiedForm)).trace = true ∧
    occursBefore (Event.checkVerificationCode "+15551234" "5678" "")
      (Event.addUser (signupUser verifyingEnv verifyingApp sampleOrganization verifiedForm "7f3a")
        true)
      (Signup verifyingEnv (anonymous issuedCodes) (Except.ok verifiedForm)).trace = true :=
  ⟨by decide,
    match signup_checks_before_persist verifyingEnv (anonymous issuedCodes)
      (Except.ok verifiedForm)
      (signupUser verifyingEnv verifyingApp sampleOrganization verifiedForm "7f3a")
      (by decide) with
    | ⟨_, _, _, _, _, _, _, _, h⟩ =>
      ⟨(h "a@b.c" "1234" "" (by decide)).2, (h "+15551234" "5678" "" (by decide)).2⟩⟩

/-- C2 as stated fails: under the rule "No verification", with the phone item hidden, a
signup that submits no code is persisted with a non-empty Email and a non-empty Phone,
and `CheckVerificationCode` was never called. -/
theorem signup_checks_counterexample :
    (Signup trustingEnv (anonymous []) (Except.ok codelessForm)).reply = ResponseOk "org/7f3a" ∧
    (Signup trustingEnv (anonymous []) (Except.ok codelessForm)).trace.any
      (fun e => match e with
        | Event.addUser u true => u.Email == "a@b.c" && u.Phone == "5551234"
        | _ => false) = true ∧
    (Signup trustingEnv (anonymous []) (Except.ok codelessForm)).trace.any Event.isCheck = false := by
  decide

/-! ### C3: invalidation only after persistence -/

/-- The two replies of `Signup` around `persistUser`. -/
theorem signup_reply_kinds (env : Env) :
    (∀ x, (ResponseOk x).isOk = true) ∧ (∀ u, (signupRejected env u).isOk = false) := by
  constructor
  · intro x; rfl
  · intro u; simp [signupRejected, ResponseError, Reply.isOk]

/-- The two replies of `OTTSignup` around `persistUser`. -/
theorem ottSignup_reply_kinds (env : Env) :
    (∀ x, (OTTResponseOk (OTTBody.register x)).isOk = true) ∧
    (∀ u, (ottSignupRejected env u).isOk = false) := by
  constructor
  · intro x; simp [OTTResponseOk, Reply.isOk]
  · intro u; simp [ottSignupRejected, OTTResponseError, Reply.isOk, OTT_CODE_ADD_USER_FAILED,
      OTT_CODE_OK]

/-- A run that stopped before `object.AddUser` invalidated nothing. -/
theorem AbortedEarly.no_disable (s : State) (r : Result) (h : AbortedEarly s r) :
    r.trace.any Event.isDisable = false := by
  rw [Bool.eq_false_iff]
  intro hany
  obtain ⟨e, he, hd⟩ := List.any_eq_true.mp hany
  have := List.all_eq_true.mp h.2.2 e he
  cases e <;> simp_all [Event.isCheck, Event.isDisable]

/-- The facts of C3 for a run that is `persistUser` after a list of checks. -/
theorem persistUser_invalidation (env : Env) (s : State) (app : Application) (user : User)
    (d1 d2 : String) (rej : User → Reply) (acc : String → Reply) (pre : List Event)
    (hpre : pre.all Event.isCheck = true) (hacc : ∀ x, (acc x).isOk = true)
    (hrej : ∀ u, (rej u).isOk = false) (r : Result)
    (hr : r = persistUser env s app user d1 d2 rej acc pre) :
    (∀ u, Event.addUser u false ∈ r.trace →
      r.reply = rej u ∧ r.trace.any Event.isDisable = false ∧ r.state = s) ∧
    (r.reply.isOk = false → r.trace.any Event.isDisable = false ∧ r.state = s) ∧
    (∀ d, Event.disableVerificationCode d ∈ r.trace →
      ∃ u, occursBefore (Event.addUser u true) (Event.disableVerificationCode d) r.trace = true) := by
  obtain ⟨hadd, hfalse, htrue, hiff⟩ :=
    persistUser_trace env s app user d1 d2 rej acc pre hpre hacc hrej
  rw [← hr] at hadd hfalse htrue hiff
  refine ⟨?_, ?_, ?_⟩
  · intro u hu
    obtain ⟨rfl, hb⟩ := hadd u false hu
    exact hfalse hb.symm
  · intro hno
    cases hb : env.AddUser user with
    | false => exact (hfalse hb).2
    | true => rw [hiff.mpr hb] at hno; exact absurd hno (by simp)
  · intro d hd
    cases hb : env.AddUser user with
    | false =>
      have := (hfalse hb).2.1
      rw [Bool.eq_false_iff] at this
      exact absurd (List.any_eq_true.mpr ⟨_, hd, rfl⟩) this
    | true => exact ⟨user, (htrue hb).2.2.2 d hd⟩

/-- C3. In `Signup` and in `OTTSignup`: when `AddUser` returns false the reply is the
persistence-rejected condition (Lightweight: code 209), `DisableVerificationCode` is not
called and the state, with every verification record, is unchanged; whenever the reply
is not a success envelope (every aborting path, panics included) no code is invalidated
and the state is unchanged; and every call of `DisableVerificationCode` comes after a
call of `AddUser` that returned true. -/
theorem invalidate_only_after_persist (env : Env) (s : State)
    (body : Except String RequestForm) (ottBody : Except String OTTSignUpRequest) :
    (∀ u, Event.addUser u false ∈ (Signup env s body).trace →
      (Signup env s body).reply =
        ResponseError
          ("Failed to create user, user information is invalid: " ++ env.StructToJson u) "" ∧
      (Signup env s body).trace.any Event.isDisable = false ∧
      (Signup env s body).state = s) ∧
    (∀ u, Event.addUser u false ∈ (OTTSignup env s ottBody).trace →
      (OTTSignup env s ottBody).reply =
        OTTResponseError 209
          ("Failed to create user, user information is invalid: " ++ env.StructToJson u) ∧
      (OTTSignup env s ottBody).trace.any Event.isDisable = false ∧
      (OTTSignup env s ottBody).state = s) ∧
    ((Signup env s body).reply.isOk = false →
      (Signup env s body).trace.any Event.isDisable = false ∧ (Signup env s body).state = s) ∧
    ((OTTSignup env s ottBody).reply.isOk = false →
      (OTTSignup env s ottBody).trace.any Event.isDisable = false ∧
      (OTTSignup env s ottBody).state = s) ∧
    (∀ d, Event.disableVerificationCode d ∈ (Signup env s body).trace →
      ∃ u, occursBefore (Event.addUser u true) (Event.disableVerificationCode d)
        (Signup env s body).trace = true) ∧
    (∀ d, Event.disableVerificationCode d ∈ (OTTSignup env s ottBody).trace →
      ∃ u, occursBefore (Event.addUser u true) (Event.disableVerificationCode d)
        (OTTSignup env s ottBody).trace = true) := by
  have hstd : (∀ u, Event.addUser u false ∈ (Signup env s body).trace →
      (Signup env s body).reply = signupRejected env u ∧
      (Signup env s body).trace.any Event.isDisable = false ∧ (Signup env s body).state = s) ∧
    ((Signup env s body).reply.isOk = false →
      (Signup env s body).trace.any Event.isDisable = false ∧ (Signup env s body).state = s) ∧
    (∀ d, Event.disableVerificationCode d ∈ (Signup env s body).trace →
      ∃ u, occursBefore (Event.addUser u true) (Event.disableVerificationCode d)
        (Signup env s body).trace = true) := by
    rcases Signup_run env s body with hab | ⟨form, app, org, id, _, _, _, _, _, _, hpass, hrun⟩
    · refine ⟨?_, ?_, ?_⟩
      · intro u hu
        exact absurd hu (not_mem_of_all_isCheck _ hab.2.2 _ rfl)
      · intro _
        exact ⟨hab.no_disable, hab.1⟩
      · intro d hd
        exact absurd hd (not_mem_of_all_isCheck _ hab.2.2 _ rfl)
    · exact persistUser_invalidation env s app _ _ _ _ _ _ (all_isCheck_of_passed _ hpass)
        (signup_reply_kinds env).1 (signup_reply_kinds env).2 _ hrun
  have hott : (∀ u, Event.addUser u false ∈ (OTTSignup env s ottBody).trace →
      (OTTSignup env s ottBody).reply = ottSignupRejected env u ∧
      (OTTSignup env s ottBody).trace.any Event.isDisable = false ∧
      (OTTSignup env s ottBody).state = s) ∧
    ((OTTSignup env s ottBody).reply.isOk = false →
      (OTTSignup env s ottBody).trace.any Event.isDisable = false ∧
      (OTTSignup env s ottBody).state = s) ∧
    (∀ d, Event.disableVerificationCode d ∈ (OTTSignup env s ottBody).trace →
      ∃ u, occursBefore (Event.addUser u true) (Event.disableVerificationCode d)
        (OTTSignup env s ottBody).trace = true) := by
    rcases OTTSignup_run env s ottBody with hab | ⟨form, app, org, _, _, _, _, _, hpass, hrun⟩
    · refine ⟨?_, ?_, ?_⟩
      · intro u hu
        exact absurd hu (not_mem_of_all_isCheck _ hab.2.2 _ rfl)
      · intro _
        exact ⟨hab.no_disable, hab.1⟩
      · intro d hd
        exact absurd hd (not_mem_of_all_isCheck _ hab.2.2 _ rfl)
    · exact persistUser_invalidation env s app _ _ _ _ _ _ (all_isCheck_of_passed _ hpass)
        (ottSignup_reply_kinds env).1 (ottSignup_reply_kinds env).2 _ hrun
  exact ⟨hstd.1, hott.1, hstd.2.1, hott.2.1, hstd.2.2, hott.2.2⟩

/-- C3 at a concrete input: storage rejects the account, both handlers reply with the
persistence-rejected condition and the issued codes are all still outstanding. -/
theorem invalidate_only_after_persist_witness :
    (Signup rejectingEnv (anonymous issuedCodes) (Except.ok verifiedForm)).reply =
      ResponseError "Failed to create user, user information is invalid: alice" "" ∧
    (Signup rejectingEnv (anonymous issuedCodes) (Except.ok verifiedForm)).state =
      anonymous issuedCodes ∧
    (OTTSignup rejectingEnv (anonymous issuedCodes)
        (Except.ok (sampleOTTForm 1 none "a@b.c" "1234"))).reply =
      OTTResponseError 209 "Failed to create user, user information is invalid: 7f3a" ∧
    (OTTSignup rejectingEnv (anonymous issuedCodes)
        (Except.ok (sampleOTTForm 1 none "a@b.c" "1234"))).state = anonymous issuedCodes :=
  have h := invalidate_only_after_persist rejectingEnv (anonymous issuedCodes)
    (Except.ok verifiedForm) (Except.ok (sampleOTTForm 1 none "a@b.c" "1234"))
  have h1 := h.1 (signupUser rejectingEnv verifyingApp sampleOrganization verifiedForm "7f3a")
    (by decide)
  have h2 := h.2.1
    (ottSignupUser rejectingEnv verifyingApp sampleOrganization
      (sampleOTTForm 1 none "a@b.c" "1234") "7f3a" "a@b.c" "" "") (by decide)
  ⟨h1.1, h1.2.2, h2.1, h2.2.2⟩

/-! ### C4: Lightweight signup without a code -/

/-- C4 (as amended). For a Lightweight signup with type = 1 and an empty verification
code, naming an existing application whose "Email" item is visible with a rule other
than "No verification", with a non-empty identity, given that the verification service
rejects the empty code: the reply is never a success (status 200), `AddUser` is not
called and the state is unchanged; and when the request reaches contact verification
(no session, signup enabled, `OTTCheckUserSignup` returns no message) the status code
is 208. -/
theorem ott_signup_missing_code (env : Env) (s : State) (form : OTTSignUpRequest)
    (app : Application)
    (happ : env.GetApplication ("admin/" ++ form.AppId) = some app)
    (htype : form.Type_ = 1) (hcode : form.VerificationCode = "")
    (hvis : app.IsSignupItemVisible "Email" = true)
    (hrule : app.GetSignupItemRule "Email" ≠ "No verification")
    (hid : form.Identity ≠ "")
    (hrej : CheckVerificationCode s.records s.now form.Identity "" ≠ "") :
    (OTTSignup env s (Except.ok form)).reply.isOk = false ∧
    (OTTSignup env s (Except.ok form)).trace.any Event.isAddUser = false ∧
    (OTTSignup env s (Except.ok form)).state = s ∧
    (s.sessionUsername = "" → app.EnableSignUp = true →
      env.OTTCheckUserSignup app (env.GetOrganization ("admin/" ++ OTT_ORGANIZATION_ID))
        form.Type_ "" form.Pwd "" "" "" form.Identity form.Prefix "" = "" →
      (OTTSignup env s (Except.ok form)).reply =
        OTTResponseError 208
          ("Email: " ++ CheckVerificationCode s.records s.now form.Identity "")) := by
  unfold OTTSignup
  simp only [happ, htype, hcode]
  by_cases hs : s.sessionUsername = ""
  · cases hen : app.EnableSignUp with
    | false => simp [hs, Reply.isOk, OTTResponseError, OTT_CODE_APPLICATION_NO_SIGNUP, OTT_CODE_OK]
    | true =>
      by_cases hmsg : env.OTTCheckUserSignup app
          (env.GetOrganization ("admin/" ++ OTT_ORGANIZATION_ID))
          1 "" form.Pwd "" "" "" form.Identity form.Prefix "" = ""
      · simp [hs, hmsg, hvis, hrule, hid, hrej, Reply.isOk, OTTResponseError,
          OTT_CODE_VERIFICATION_CODE_NOT_MATCH, OTT_CODE_OK, Event.isAddUser]
      · simp [hs, hmsg, Reply.isOk, OTTResponseError, OTT_CODE_INVALID_PARAM, OTT_CODE_OK]
  · simp [hs, Reply.isOk, OTTResponseError, OTT_CODE_NEED_SIGN_OUT, OTT_CODE_OK]

/-- C4 at a concrete input: an email signup without a code is answered with 208. -/
theorem ott_signup_missing_code_witness :
    CheckVerificationCode (anonymous issuedCodes).records (anonymous issuedCodes).now
      (sampleOTTForm 1 none "a@b.c" "").Identity "" ≠ "" ∧
    (OTTSignup verifyingEnv (anonymous issuedCodes)
        (Except.ok (sampleOTTForm 1 none "a@b.c" ""))).reply =
      OTTResponseError 208 "Email: Wrong code!" :=
  ⟨by decide,
    (ott_signup_missing_code verifyingEnv (anonymous issuedCodes)
      (sampleOTTForm 1 none "a@b.c" "") verifyingApp rfl rfl rfl (by decide) (by decide)
      (by decide) (by decide)).2.2.2 rfl rfl rfl⟩

/-- C4 as stated fails: with the "Email" item under the rule "No verification", an email
signup (type = 1) without a code is answered with status 200 and the account is
persisted, although the verification service rejects the empty code. -/
theorem ott_signup_missing_code_counterexample :
    (sampleOTTForm 1 none "a@b.c" "").Type_ = 1 ∧
    (sampleOTTForm 1 none "a@b.c" "").VerificationCode = "" ∧
    CheckVerificationCode (anonymous []).records (anonymous []).now "a@b.c" "" ≠ "" ∧
    (OTTSignup trustingEnv (anonymous []) (Except.ok (sampleOTTForm 1 none "a@b.c" ""))).reply =
      Reply.ott { Code := 200, Msg := "", Body := OTTBody.register "OTT/7f3a" } ∧
    (OTTSignup trustingEnv (anonymous []) (Except.ok (sampleOTTForm 1 none "a@b.c" ""))).trace.any
      (fun e => match e with
        | Event.addUser _ true => true
        | _ => false) = true := by
  decide

/-! ### C5: the human check of `SendVerificationCode` -/

/-- Without a configured provider the handler decides the human check as the spec's
`verifyHuman` does: by the built-in `VerifyCaptcha`. -/
theorem isHuman_without_provider (env : Env) (providerVerify : String → String → String → Bool)
    (checkId checkKey : String) (h : env.GetDefaultHumanCheckProvider = none) :
    isHuman env checkId checkKey = env.VerifyCaptcha checkId checkKey ∧
    isHuman env checkId checkKey =
      verifyHumanSpec env.GetDefaultHumanCheckProvider providerVerify env.VerifyCaptcha
        checkId checkKey := by
  simp [isHuman, verifyHumanSpec, h]

/-- With a provider configured the handler never consults it: the check fails. -/
theorem isHuman_with_provider (env : Env) (p checkId checkKey : String)
    (h : env.GetDefaultHumanCheckProvider = some p) : isHuman env checkId checkKey = false := by
  simp [isHuman, h]

/-- A failed human check ends the request: the reply is "Turing test failed.", no code
is issued, nothing else is called. -/
theorem sendVerificationCode_human_check_failed (env : Env) (s : State)
    (form : SendVerificationCodeForm)
    (hpresent : ¬ (form.type_ = "" ∨ form.dest = "" ∨ form.organizationId = "" ∨
      ¬ ('/' ∈ form.organizationId.data) ∨ form.checkType = "" ∨ form.checkId = "" ∨
      form.checkKey = ""))
    (hfail : isHuman env form.checkId form.checkKey = false) :
    SendVerificationCode env s form =
      { reply := ResponseError "Turing test failed." "", trace := [], state := s } := by
  unfold SendVerificationCode
  rw [if_neg hpresent, if_pos hfail]

/-- C5: the code at the failing input. The provider "aliyun-captcha" is configured and
accepts the request, so the spec's `verifyHuman` passes; the handler never consults the
provider, decides the check as failed, replies "Turing test failed." and issues no
code. With no provider configured the same request passes the built-in check and the
code is issued. -/
theorem human_check_provider_never_consulted :
    providerEnv.GetDefaultHumanCheckProvider = some "aliyun-captcha" ∧
    verifyHumanSpec providerEnv.GetDefaultHumanCheckProvider (fun _ _ _ => true)
      providerEnv.VerifyCaptcha "challenge-1" "ok" = true ∧
    isHuman providerEnv "challenge-1" "ok" = false ∧
    SendVerificationCode providerEnv (anonymous []) (sampleSendForm "email" "a@b.c" "ok" "") =
      { reply := ResponseError "Turing test failed." "", trace := [], state := anonymous [] } ∧
    (SendVerificationCode verifyingEnv (anonymous []) (sampleSendForm "email" "a@b.c" "ok" "")).trace =
      [Event.sendVerificationCodeToEmail "a@b.c" none] := by
  decide

/-! ### Decimal text -/

theorem digitValue_digitChar (d : Nat) (h : d < 10) : digitValue (digitChar d) = some d := by
  interval_cases d <;> decide

theorem digitChar_ne_sign (d : Nat) (h : d < 10) : digitChar d ≠ '-' ∧ digitChar d ≠ '+' := by
  interval_cases d <;> decide

theorem decimalDigits_spec (fuel n : Nat) (h : n < fuel) :
    decimalDigits fuel n ≠ [] ∧
    (∀ c ∈ decimalDigits fuel n, ∃ d, d < 10 ∧ c = digitChar d) ∧
    (decimalDigits fuel n).foldl decimalStep (some 0) = some n := by
  induction fuel generalizing n with
  | zero => omega
  | succ fuel ih =>
    unfold decimalDigits
    by_cases hn : n < 10
    · simp only [if_pos hn]
      refine ⟨by simp, ?_, ?_⟩
      · intro c hc
        exact ⟨n, hn, by simpa using hc⟩
      · simp [decimalStep, digitValue_digitChar n hn]
    · simp only [if_neg hn]
      obtain ⟨_, h2, h3⟩ := ih (n / 10) (by omega)
      refine ⟨by simp, ?_, ?_⟩
      · intro c hc
        rcases List.mem_append.mp hc with hc | hc
        · exact h2 c hc
        · exact ⟨n % 10, Nat.mod_lt _ (by norm_num), by simpa using hc⟩
      · rw [List.foldl_append, h3]
        simp only [List.foldl_cons, List.foldl_nil, decimalStep, Option.some_bind,
          digitValue_digitChar (n % 10) (Nat.mod_lt _ (by norm_num)), Option.map_some']
        congr 1
        omega

theorem decimalToNat_natToDecimal (n : Nat) : decimalToNat (natToDecimal n) = some n := by
  obtain ⟨h1, _, h3⟩ := decimalDigits_spec (n + 1) n (by omega)
  unfold decimalToNat natToDecimal
  split
  · rename_i heq
    exact absurd heq h1
  · exact h3

theorem natToDecimal_head (n : Nat) :
    ∃ c cs, natToDecimal n = c :: cs ∧ c ≠ '-' ∧ c ≠ '+' := by
  obtain ⟨h1, h2, _⟩ := decimalDigits_spec (n + 1) n (by omega)
  unfold natToDecimal
  cases hl : decimalDigits (n + 1) n with
  | nil => exact absurd hl h1
  | cons c cs =>
    obtain ⟨d, hd, rfl⟩ := h2 c (by rw [hl]; simp)
    exact ⟨_, _, rfl, digitChar_ne_sign d hd⟩

/-- A value that passes a range check survives the check. -/
theorem bind_range_check (p : Int → Bool) (v : Option Int) (i : Int) (hv : v = some i)
    (hp : p i = true) : (v.bind fun j => if p j = true then some j else none) = some i := by
  subst hv
  simp [hp]

/-- The integer `ParseInt` reads in the text `Itoa` writes, before the range check. -/
theorem parse_Itoa (i : Int) :
    (match (Itoa i).data with
      | '-' :: cs => (decimalToNat cs).map (fun n => -Int.ofNat n)
      | '+' :: cs => (decimalToNat cs).map Int.ofNat
      | cs => (decimalToNat cs).map Int.ofNat) = some i := by
  cases i with
  | ofNat n =>
    obtain ⟨c, cs, hcs, hm, hp⟩ := natToDecimal_head n
    have hval : decimalToNat (c :: cs) = some n := by rw [← hcs]; exact decimalToNat_natToDecimal n
    simp only [Itoa, hcs]
    split
    · rename_i heq
      simp only [List.cons.injEq] at heq
      exact absurd heq.1 hm
    · rename_i heq
      simp only [List.cons.injEq] at heq
      exact absurd heq.1 hp
    · rw [hval]
      rfl
  | negSucc n =>
    simp only [Itoa, decimalToNat_natToDecimal]
    rfl

/-- `ParseInt` reads back what `Itoa` writes, for every value of `int`. -/
theorem ParseInt_Itoa (i : Int) (h : inInt64 i = true) : ParseInt (Itoa i) = some i := by
  unfold ParseInt
  exact bind_range_check inInt64 _ i (parse_Itoa i) h

theorem inInt64_wrapInt64 (i : Int) : inInt64 (wrapInt64 i) = true := by
  unfold inInt64 wrapInt64
  simp only [Bool.and_eq_true, decide_eq_true_eq]
  norm_num
  omega

theorem wrapInt64_succ_ne (i : Int) : wrapInt64 (i + 1) ≠ i := by
  unfold wrapInt64
  norm_num
  omega

theorem wrapInt64_of_inInt64 (i : Int) (h : inInt64 i = true) : wrapInt64 i = i := by
  unfold inInt64 at h
  unfold wrapInt64
  simp only [Bool.and_eq_true, decide_eq_true_eq] at h
  norm_num at h ⊢
  omega

theorem ParseInt_inInt64 (s : String) (i : Int) (h : ParseInt s = some i) : inInt64 i = true := by
  unfold ParseInt at h
  simp only [Option.bind_eq_some] at h
  obtain ⟨j, _, hj⟩ := h
  split at hj
  · rename_i hin
    simp only [Option.some.injEq] at hj
    rw [← hj]; exact hin
  · exact absurd hj (by simp)

/-! ### C6: the incremental identifier rule -/

/-- The identifier of a persisted account is the one `signupAllocateId` allocated. -/
theorem signup_persisted_id (env : Env) (s : State) (body : Except String RequestForm)
    (user : User) (h : Event.addUser user true ∈ (Signup env s body).trace) :
    ∃ form app, body = Except.ok form ∧
      env.GetApplication ("admin/" ++ form.Application) = some app ∧
      signupAllocateId env app form = some user.Id := by
  rcases Signup_run env s body with hab | ⟨form, app, org, id, hb, _, happ, _, _, hid, hpass, hrun⟩
  · exact absurd h (not_mem_of_all_isCheck _ hab.2.2 _ rfl)
  · obtain ⟨hadd, _, _, _⟩ := persistUser_trace env s app (signupUser env app org form id)
      form.Email (signupCheckPhone app form) (signupRejected env) ResponseOk
      (signupEmailChecks s app form ++ signupPhoneChecks s app form)
      (all_isCheck_of_passed _ hpass) (signup_reply_kinds env).1 (signup_reply_kinds env).2
    rw [← hrun] at hadd
    obtain ⟨hu, _⟩ := hadd user true h
    refine ⟨form, app, hb, happ, ?_⟩
    rw [hid, hu]
    rfl

/-- Under the "Incremental" ID rule the identifier is the decimal string of the last
identifier's integer value plus one, the addition being that of Go's `int`. -/
theorem signupAllocateId_incremental (env : Env) (app : Application) (form : RequestForm)
    (last : User) (n : Int) (hrule : app.GetSignupItemRule "ID" = "Incremental")
    (hlast : env.GetLastUser form.Organization = some last) (hparse : ParseInt last.Id = some n) :
    signupAllocateId env app form = some (Itoa (wrapInt64 (n + 1))) := by
  simp only [signupAllocateId, hrule, hlast, hparse, if_true]

/-- C6 (as amended). Under the "Incremental" ID rule `Signup` allocates "0" when the
organization has no account, and otherwise, when the identifier of the most recently
created account is the decimal string of an integer n with -2^63 ≤ n < 2^63 - 1 (or any
other text that `util.ParseInt` reads as such an n), the decimal string of n + 1.
The identifier of the persisted account is the allocated one. Consequently, for two
sequential successful signups in the same organization, where the second runs under
the rule and reads the account persisted by the first as the last user, the two
identifiers are different. -/
theorem incremental_identifier :
    (∀ (env : Env) (app : Application) (form : RequestForm),
      app.GetSignupItemRule "ID" = "Incremental" → env.GetLastUser form.Organization = none →
      signupAllocateId env app form = some "0") ∧
    (∀ (env : Env) (app : Application) (form : RequestForm) (last : User) (n : Int),
      app.GetSignupItemRule "ID" = "Incremental" →
      env.GetLastUser form.Organization = some last → last.Id = Itoa n →
      -2 ^ 63 ≤ n → n < 2 ^ 63 - 1 → signupAllocateId env app form = some (Itoa (n + 1))) ∧
    (∀ (env : Env) (app : Application) (form : RequestForm) (last : User) (n : Int),
      app.GetSignupItemRule "ID" = "Incremental" →
      env.GetLastUser form.Organization = some last → ParseInt last.Id = some n →
      n < 2 ^ 63 - 1 →
      -2 ^ 63 ≤ n ∧ signupAllocateId env app form = some (Itoa (n + 1))) ∧
    (∀ (env : Env) (s : State) (body : Except String RequestForm) (user : User),
      Event.addUser user true ∈ (Signup env s body).trace →
      ∃ form app, body = Except.ok form ∧
        env.GetApplication ("admin/" ++ form.Application) = some app ∧
        signupAllocateId env app form = some user.Id) ∧
    (∀ (env1 env2 : Env) (s1 s2 : State) (body1 : Except String RequestForm)
      (form2 : RequestForm) (app2 : Application) (user1 user2 : User),
      Event.addUser user1 true ∈ (Signup env1 s1 body1).trace →
      Event.addUser user2 true ∈ (Signup env2 s2 (Except.ok form2)).trace →
      env2.GetApplication ("admin/" ++ form2.Application) = some app2 →
      app2.GetSignupItemRule "ID" = "Incremental" →
      env2.GetLastUser form2.Organization = some user1 →
      user2.Id ≠ user1.Id) := by
  have hread : ∀ (env : Env) (app : Application) (form : RequestForm) (last : User) (n : Int),
      app.GetSignupItemRule "ID" = "Incremental" →
      env.GetLastUser form.Organization = some last → ParseInt last.Id = some n →
      n < 2 ^ 63 - 1 →
      -2 ^ 63 ≤ n ∧ signupAllocateId env app form = some (Itoa (n + 1)) := by
    intro env app form last n hrule hlast hparse hn
    have hrun := signupAllocateId_incremental env app form last n hrule hlast hparse
    have hin := ParseInt_inInt64 _ _ hparse
    have hlow : -2 ^ 63 ≤ n := by
      unfold inInt64 at hin
      simp only [Bool.and_eq_true, decide_eq_true_eq] at hin
      exact hin.1
    have hin2 : inInt64 (n + 1) = true := by
      unfold inInt64 at hin ⊢
      simp only [Bool.and_eq_true, decide_eq_true_eq] at hin ⊢
      norm_num at hin hn ⊢
      omega
    exact ⟨hlow, by rw [hrun, wrapInt64_of_inInt64 _ hin2]⟩
  refine ⟨?_, ?_, hread, signup_persisted_id, ?_⟩
  · intro env app form hrule hlast
    simp only [signupAllocateId, hrule, hlast, if_true]
    rfl
  · intro env app form last n hrule hlast hid hlow hn
    have hin : inInt64 n = true := by
      unfold inInt64
      simp only [Bool.and_eq_true, decide_eq_true_eq]
      norm_num at hlow hn ⊢
      omega
    have hparse : ParseInt last.Id = some n := by rw [hid]; exact ParseInt_Itoa n hin
    exact (hread env app form last n hrule hlast hparse hn).2
  · intro env1 env2 s1 s2 body1 form2 app2 user1 user2 _ h2 happ hrule hlast heq
    obtain ⟨form, app, hb, happ2, hid⟩ := signup_persisted_id env2 s2 _ user2 h2
    simp only [Except.ok.injEq] at hb
    subst hb
    rw [happ] at happ2
    simp only [Option.some.injEq] at happ2
    subst happ2
    simp only [signupAllocateId, hrule, hlast, if_true] at hid
    split at hid
    · exact absurd hid (by simp)
    · rename_i n hparse
      simp only [Option.some.injEq] at hid
      have hback := ParseInt_Itoa (wrapInt64 (n + 1)) (inInt64_wrapInt64 _)
      rw [hid, heq, hparse] at hback
      simp only [Option.some.injEq] at hback
      exact wrapInt64_succ_ne n hback.symm

/-- C6 at a concrete input: the first signup of an organization is allocated "0", and
the next one, reading that account as the last user, is allocated "1". -/
theorem incremental_identifier_witness :
    Event.addUser firstAccount true ∈
      (Signup (incrementalEnv none) (anonymous []) (Except.ok codelessForm)).trace ∧
    Event.addUser secondAccount true ∈
      (Signup (incrementalEnv (some firstAccount)) (anonymous [])
        (Except.ok codelessForm)).trace ∧
    firstAccount.Id = "0" ∧ secondAccount.Id = "1" ∧
    secondAccount.Id ≠ firstAccount.Id :=
  ⟨by decide, by decide, rfl, rfl,
    incremental_identifier.2.2.2.2 (incrementalEnv none) (incrementalEnv (some firstAccount))
      (anonymous []) (anonymous []) (Except.ok codelessForm) codelessForm incrementalApp
      firstAccount secondAccount (by decide) (by decide) rfl rfl rfl⟩

/-- C6 as stated fails outside the range the amendment names. At the top of the `int`
range the last identifier is "9223372036854775807", whose integer value plus one is
9223372036854775808, but the addition wraps around and the identifier allocated, and
persisted, is "-9223372036854775808". Below the `int` range the last identifier is
"-9223372036854775809", the decimal string of an integer whose successor is
-9223372036854775808, but `util.ParseInt` cannot read it: no identifier is allocated,
the handler panics and no account is persisted. -/
theorem incremental_identifier_counterexample :
    ParseInt "9223372036854775807" = some 9223372036854775807 ∧
    Itoa (9223372036854775807 + 1) = "9223372036854775808" ∧
    signupAllocateId (incrementalEnv (some (sampleUser "9223372036854775807" "" "")))
      incrementalApp codelessForm = some "-9223372036854775808" ∧
    (Signup (incrementalEnv (some (sampleUser "9223372036854775807" "" ""))) (anonymous [])
      (Except.ok codelessForm)).reply = ResponseOk "org/-9223372036854775808" ∧
    Itoa (-9223372036854775809) = "-9223372036854775809" ∧
    signupAllocateId (incrementalEnv (some (sampleUser "-9223372036854775809" "" "")))
      incrementalApp codelessForm = none ∧
    (Signup (incrementalEnv (some (sampleUser "-9223372036854775809" "" ""))) (anonymous [])
      (Except.ok codelessForm)).reply.isOk = false ∧
    (Signup (incrementalEnv (some (sampleUser "-9223372036854775809" "" ""))) (anonymous [])
      (Except.ok codelessForm)).trace.any Event.isAddUser = false := by
  decide

/-! ### C7: reset of email or phone -/

/-- After `invalidate(dest)` every check against `dest` fails, whatever the code and the time. -/
theorem check_after_disable (records : List VerificationRecord) (now : Nat) (dest code : String) :
    CheckVerificationCode (DisableVerificationCode records dest) now dest code =
      "Code has not been sent yet!" := by
  have hnil : (DisableVerificationCode records dest).filter
      (fun r => r.Receiver == dest && !r.IsUsed) = [] := by
    rw [List.filter_eq_nil_iff]
    intro r hr
    simp only [DisableVerificationCode, List.mem_map] at hr
    obtain ⟨r0, _, rfl⟩ := hr
    by_cases h : (r0.Receiver == dest) = true
    · simp [h]
    · simp [h]
  unfold CheckVerificationCode
  rw [hnil]

/-- C7 (as amended). For every `ResetEmailOrPhone` request by a signed-in existing user
with type "email" or "phone" and non-empty dest and code, the code is checked against
dest for email and against the internationalized dest for phone. If the check succeeds,
the account field named by type is overwritten with dest, the code of the checked
destination is invalidated, the reply is ok, and every later check against that
destination fails. If the check fails, its message is returned as the error, the
account is not written, no code is invalidated and the state is unchanged. -/
theorem reset_email_or_phone (env : Env) (s : State) (destType dest code : String)
    (user : User) (hs : s.sessionUsername ≠ "")
    (hu : env.GetUser s.sessionUsername = some user)
    (hd : dest ≠ "") (hc : code ≠ "") (ht : destType = "email" ∨ destType = "phone") :
    (destType = "email" → resetCheckDest env user destType dest = dest) ∧
    (destType = "phone" →
      ∃ p, resetCheckDest env user destType dest = env.MakeInternationalPhone p dest) ∧
    (CheckVerificationCode s.records s.now (resetCheckDest env user destType dest) code = "" →
      (ResetEmailOrPhone env s destType dest code).reply =
        Reply.std { Status := "ok", Msg := "", Data := "" } ∧
      (ResetEmailOrPhone env s destType dest code).trace =
        [Event.checkVerificationCode (resetCheckDest env user destType dest) code "",
         Event.setUserField
           (if destType = "email" then { user with Email := dest }
            else { user with Phone := dest }) destType dest,
         Event.disableVerificationCode (resetCheckDest env user destType dest)] ∧
      (ResetEmailOrPhone env s destType dest code).state.records =
        DisableVerificationCode s.records (resetCheckDest env user destType dest) ∧
      ∀ later code2,
        CheckVerificationCode (ResetEmailOrPhone env s destType dest code).state.records later
          (resetCheckDest env user destType dest) code2 ≠ "") ∧
    (CheckVerificationCode s.records s.now (resetCheckDest env user destType dest) code ≠ "" →
      (ResetEmailOrPhone env s destType dest code).reply =
        ResponseError
          (CheckVerificationCode s.records s.now (resetCheckDest env user destType dest) code) "" ∧
      (ResetEmailOrPhone env s destType dest code).trace =
        [Event.checkVerificationCode (resetCheckDest env user destType dest) code
          (CheckVerificationCode s.records s.now (resetCheckDest env user destType dest) code)] ∧
      (ResetEmailOrPhone env s destType dest code).state = s) := by
  have hne : destType ≠ "" := by
    rcases ht with rfl | rfl <;> decide
  have hpe : ("phone" : String) ≠ "email" := by decide
  refine ⟨?_, ?_, ?_, ?_⟩
  · rintro rfl
    simp [resetCheckDest]
  · rintro rfl
    simp only [resetCheckDest, if_true]
    exact ⟨_, rfl⟩
  · intro hok
    have hrun : ResetEmailOrPhone env s destType dest code =
        { reply := ResponseOk ""
          trace := [Event.checkVerificationCode (resetCheckDest env user destType dest) code "",
            Event.setUserField
              (if destType = "email" then { user with Email := dest }
               else { user with Phone := dest }) destType dest,
            Event.disableVerificationCode (resetCheckDest env user destType dest)]
          state := { s with records :=
            DisableVerificationCode s.records (resetCheckDest env user destType dest) } } := by
      unfold ResetEmailOrPhone RequireSignedIn
      rcases ht with rfl | rfl
      · simp [hs, hu, hd, hc, hok]
      · simp [hs, hu, hd, hc, hok]
    rw [hrun]
    refine ⟨rfl, rfl, rfl, ?_⟩
    intro later code2
    simp only
    rw [check_after_disable]
    decide
  · intro hbad
    unfold ResetEmailOrPhone RequireSignedIn
    simp [hs, hu, hd, hc, hne, hbad]

/-- C7 at a concrete input: alice resets her email with the code issued to it. -/
theorem reset_email_or_phone_witness :
    (ResetEmailOrPhone (knownEnv "old@b.c" "5550000") (signedIn issuedCodes) "email" "a@b.c"
        "1234").reply = Reply.std { Status := "ok", Msg := "", Data := "" } ∧
    (∀ later code2,
      CheckVerificationCode
        (ResetEmailOrPhone (knownEnv "old@b.c" "5550000") (signedIn issuedCodes) "email" "a@b.c"
          "1234").state.records later
        (resetCheckDest (knownEnv "old@b.c" "5550000") (sampleUser "7" "old@b.c" "5550000")
          "email" "a@b.c") code2 ≠ "") :=
  have h := (reset_email_or_phone (knownEnv "old@b.c" "5550000") (signedIn issuedCodes) "email"
    "a@b.c" "1234" (sampleUser "7" "old@b.c" "5550000") (by decide) rfl (by decide) (by decide)
    (Or.inl rfl)).2.2.1 (by decide)
  ⟨h.1, h.2.2.2⟩

/-- C7 as stated fails for a type that names no account field: with type "fax" and the
right code for dest, the check succeeds, yet the reply is the error "Unknown type.", no
account field is written, the code is not invalidated, and a later check against the
same destination still succeeds. -/
theorem reset_email_or_phone_counterexample :
    CheckVerificationCode (signedIn issuedCodes).records (signedIn issuedCodes).now "a@b.c"
      "1234" = "" ∧
    ResetEmailOrPhone (knownEnv "old@b.c" "5550000") (signedIn issuedCodes) "fax" "a@b.c" "1234" =
      { reply := ResponseError "Unknown type." ""
        trace := [Event.checkVerificationCode "a@b.c" "1234" ""]
        state := signedIn issuedCodes } ∧
    CheckVerificationCode
      (ResetEmailOrPhone (knownEnv "old@b.c" "5550000") (signedIn issuedCodes) "fax" "a@b.c"
        "1234").state.records 100 "a@b.c" "1234" = "" := by
  decide

/-! ### C8: Lightweight send-verification-code -/

/-- When the prefix is present, or the type is not 0 (phone), a parsed Lightweight
send-verification-code request is answered with one of the codes 200, 300 and 302. -/
theorem ottSendVerificationCode_codes (env : Env) (s : State)
    (svcRequest : SendVerificationCodeRequest)
    (h : svcRequest.Type_ = 0 → svcRequest.Prefix ≠ none) :
    ∃ r, (OTTSendVerificationCode env s (Except.ok svcRequest)).reply = Reply.ott r ∧
      (r.Code = 200 ∨ r.Code = 300 ∨ r.Code = 302) := by
  have hreply : ∀ sendResp, ∃ r, ottSendReply sendResp = Reply.ott r ∧
      (r.Code = 200 ∨ r.Code = 300 ∨ r.Code = 302) := by
    intro sendResp
    cases sendResp with
    | none => exact ⟨_, rfl, Or.inl rfl⟩
    | some err => exact ⟨_, rfl, Or.inr (Or.inl rfl)⟩
  unfold OTTSendVerificationCode
  simp only
  split
  · split
    · exact ⟨_, rfl, Or.inr (Or.inr rfl)⟩
    · exact hreply _
  · split
    · rename_i h0
      split
      · rename_i hnone
        exact absurd hnone (h h0)
      · exact hreply _
    · exact hreply (some "send verification code failed")

/-- C8: the code at the failing input. A parsed Lightweight send-verification-code
request with type = 0 (phone) and no prefix dereferences the nil prefix: the handler
panics and writes no response envelope. The sibling `OTTSignup` guards the same
dereference, and answers the corresponding signup body with an envelope. -/
theorem ott_send_verification_code_nil_prefix :
    OTTSendVerificationCode verifyingEnv (anonymous [])
        (Except.ok (sampleOTTSendBody 0 none "5551234")) =
      { reply := Reply.runtimePanic "invalid memory address or nil pointer dereference"
        trace := [], state := anonymous [] } ∧
    (OTTSendVerificationCode verifyingEnv (anonymous [])
        (Except.ok (sampleOTTSendBody 0 (some "1") "5551234"))).reply =
      Reply.ott { Code := 200, Msg := "", Body := OTTBody.sendVerificationCode 60 } ∧
    (OTTSignup verifyingEnv (anonymous [])
        (Except.ok (sampleOTTForm 0 none "5551234" "5678"))).reply =
      Reply.ott { Code := 200, Msg := "", Body := OTTBody.register "OTT/7f3a" } := by
  decide

/-! ### C9: the value returned by a successful signup -/

/-- C9. For every successful Standard signup (the reply is a success envelope) an
account was persisted, and the reply is status ok carrying the string Owner ++ "/" ++
Name of that account, where Owner is the submitted organization; when the "Username"
item is not visible the account's Name equals its Id, so the returned string is
organization ++ "/" ++ identifier, and when it is visible Name is the submitted
username. -/
theorem signup_returns_owner_name (env : Env) (s : State) (body : Except String RequestForm)
    (hok : (Signup env s body).reply.isOk = true) :
    ∃ user form app, body = Except.ok form ∧
      env.GetApplication ("admin/" ++ form.Application) = some app ∧
      Event.addUser user true ∈ (Signup env s body).trace ∧
      (Signup env s body).reply =
        Reply.std { Status := "ok", Msg := "", Data := user.Owner ++ "/" ++ user.Name } ∧
      user.Owner = form.Organization ∧
      (app.IsSignupItemVisible "Username" = false →
        user.Name = user.Id ∧
        (Signup env s body).reply =
          Reply.std { Status := "ok", Msg := "", Data := form.Organization ++ "/" ++ user.Id }) ∧
      (app.IsSignupItemVisible "Username" = true → user.Name = form.Username) := by
  rcases Signup_run env s body with hab | ⟨form, app, org, id, hb, _, happ, _, _, _, hpass, hrun⟩
  · rw [hab.2.1] at hok
    exact absurd hok (by simp)
  · obtain ⟨_, _, htrue, hiff⟩ := persistUser_trace env s app (signupUser env app org form id)
      form.Email (signupCheckPhone app form) (signupRejected env) ResponseOk
      (signupEmailChecks s app form ++ signupPhoneChecks s app form)
      (all_isCheck_of_passed _ hpass) (signup_reply_kinds env).1 (signup_reply_kinds env).2
    rw [← hrun] at htrue hiff
    obtain ⟨hreply, hmem, _, _⟩ := htrue (hiff.mp hok)
    refine ⟨signupUser env app org form id, form, app, hb, happ, hmem, hreply, rfl, ?_, ?_⟩
    · intro hv
      have hname : (signupUser env app org form id).Name = (signupUser env app org form id).Id := by
        simp [signupUser, hv]
      refine ⟨hname, ?_⟩
      rw [hreply, hname]
      rfl
    · intro hv
      simp [signupUser, hv]

/-- C9 at a concrete input: with the username hidden the caller receives
organization/identifier. -/
theorem signup_returns_owner_name_witness :
    (Signup trustingEnv (anonymous []) (Except.ok codelessForm)).reply.isOk = true ∧
    ∃ user form app, (Except.ok codelessForm : Except String RequestForm) = Except.ok form ∧
      trustingEnv.GetApplication ("admin/" ++ form.Application) = some app ∧
      Event.addUser user true ∈ (Signup trustingEnv (anonymous []) (Except.ok codelessForm)).trace ∧
      (Signup trustingEnv (anonymous []) (Except.ok codelessForm)).reply =
        Reply.std { Status := "ok", Msg := "", Data := user.Owner ++ "/" ++ user.Name } ∧
      user.Owner = form.Organization ∧
      (app.IsSignupItemVisible "Username" = false →
        user.Name = user.Id ∧
        (Signup trustingEnv (anonymous []) (Except.ok codelessForm)).reply =
          Reply.std { Status := "ok", Msg := "", Data := form.Organization ++ "/" ++ user.Id }) ∧
      (app.IsSignupItemVisible "Username" = true → user.Name = form.Username) :=
  ⟨by decide,
    signup_returns_owner_name trustingEnv (anonymous []) (Except.ok codelessForm) (by decide)⟩

/-! ### C10: de-masking of the claimed destination -/

/-- The destination `SendVerificationCode` dispatches a code to: on the email channel
the de-masked claimed destination, on the phone channel the normalization of the
de-masked claimed destination, both for the account the request is bound to. -/
theorem sendVerificationCode_destination (env : Env) (s : State)
    (form : SendVerificationCodeForm) :
    (∀ dest failure,
      Event.sendVerificationCodeToEmail dest failure ∈ (SendVerificationCode env s form).trace →
      ∃ user, boundUser env (getCurrentUser env s) form.organizationId form.checkUser =
          some user ∧
        dest = demaskEmail env user form.dest) ∧
    (∀ dest failure,
      Event.sendVerificationCodeToPhone dest failure ∈ (SendVerificationCode env s form).trace →
      ∃ user org, boundUser env (getCurrentUser env s) form.organizationId form.checkUser =
          some user ∧
        env.GetOrganization form.organizationId = some org ∧
        dest = normalizePhone org.PhonePrefix (demaskPhone env user form.dest)) := by
  unfold SendVerificationCode
  constructor
  · intro dest failure
    split
    · simp
    · split
      · simp
      · split
        · simp
        · simp only
          split
          · simp
          · split
            · simp
            · rename_i user hbound
              split
              · split
                · simp
                · intro hmem
                  simp only [List.mem_singleton, Event.sendVerificationCodeToEmail.injEq] at hmem
                  exact ⟨user, hbound, hmem.1⟩
              · split
                · simp
                · simp
  · intro dest failure
    split
    · simp
    · split
      · simp
      · split
        · simp
        · rename_i organization horg
          simp only
          split
          · simp
          · split
            · simp
            · rename_i user hbound
              split
              · split <;> simp
              · split
                · intro hmem
                  simp only [List.mem_singleton, Event.sendVerificationCodeToPhone.injEq] at hmem
                  exact ⟨user, organization, hbound, horg, hmem.1⟩
                · simp

/-- A destination that `normalizePhone` built begins with '+'. -/
theorem hasPrefix_plus_append (x p : String) : HasPrefix ("+" ++ x ++ p) "+" = true := by
  simp [HasPrefix, String.data_append, List.isPrefixOf]

/-- The result of `normalizePhone` begins with '+'. -/
theorem hasPrefix_normalizePhone (x p : String) : HasPrefix (normalizePhone x p) "+" = true := by
  unfold normalizePhone
  split
  · assumption
  · exact hasPrefix_plus_append x p

/-- The trace and state of `SendVerificationCode` on the phone channel, once the request
has passed the parameter check, the human check and the login check. -/
theorem sendVerificationCode_phone_run (env : Env) (s : State) (form : SendVerificationCodeForm)
    (org : Organization) (known : Option User)
    (hpresent : ¬ (form.type_ = "" ∨ form.dest = "" ∨ form.organizationId = "" ∨
      ¬ ('/' ∈ form.organizationId.data) ∨ form.checkType = "" ∨ form.checkId = "" ∨
      form.checkKey = ""))
    (hhuman : isHuman env form.checkId form.checkKey = true)
    (horg : env.GetOrganization form.organizationId = some org)
    (hlogin : ¬ (form.checkUser = "true" ∧ getCurrentUser env s = none ∧
      env.GetUserByFields org.Name form.dest = none))
    (hbound : boundUser env (getCurrentUser env s) form.organizationId form.checkUser =
      some known)
    (htype : form.type_ = "phone") :
    SendVerificationCode env s form =
      { reply := sendReply (env.SendVerificationCodeToPhone (some org) known
          (env.GetSmsProvider (env.GetApplicationByOrganizationName org.Name))
          env.GetIPFromRequest (normalizePhone org.PhonePrefix (demaskPhone env known form.dest)))
        trace := [Event.sendVerificationCodeToPhone
          (normalizePhone org.PhonePrefix (demaskPhone env known form.dest))
          (env.SendVerificationCodeToPhone (some org) known
            (env.GetSmsProvider (env.GetApplicationByOrganizationName org.Name))
            env.GetIPFromRequest
            (normalizePhone org.PhonePrefix (demaskPhone env known form.dest)))]
        state := afterDispatch env s
          (normalizePhone org.PhonePrefix (demaskPhone env known form.dest))
          (env.SendVerificationCodeToPhone (some org) known
            (env.GetSmsProvider (env.GetApplicationByOrganizationName org.Name))
            env.GetIPFromRequest
            (normalizePhone org.PhonePrefix (demaskPhone env known form.dest))) } := by
  have hne : ("phone" : String) ≠ "email" := by decide
  unfold SendVerificationCode
  rw [if_neg hpresent, if_neg (by rw [hhuman]; simp)]
  simp only [horg, hbound, htype]
  rw [if_neg hlogin, if_neg hne]
  simp

/-- The trace and state of `SendVerificationCode` on the email channel, once the request
has passed the parameter check, the human check, the login check and the syntax check
of the de-masked address. -/
theorem sendVerificationCode_email_run (env : Env) (s : State) (form : SendVerificationCodeForm)
    (org : Organization) (known : Option User)
    (hpresent : ¬ (form.type_ = "" ∨ form.dest = "" ∨ form.organizationId = "" ∨
      ¬ ('/' ∈ form.organizationId.data) ∨ form.checkType = "" ∨ form.checkId = "" ∨
      form.checkKey = ""))
    (hhuman : isHuman env form.checkId form.checkKey = true)
    (horg : env.GetOrganization form.organizationId = some org)
    (hlogin : ¬ (form.checkUser = "true" ∧ getCurrentUser env s = none ∧
      env.GetUserByFields org.Name form.dest = none))
    (hbound : boundUser env (getCurrentUser env s) form.organizationId form.checkUser =
      some known)
    (htype : form.type_ = "email")
    (hvalid : env.IsEmailValid (demaskEmail env known form.dest) = true) :
    SendVerificationCode env s form =
      { reply := sendReply (env.SendVerificationCodeToEmail (some org) known
          (env.GetEmailProvider (env.GetApplicationByOrganizationName org.Name))
          env.GetIPFromRequest (demaskEmail env known form.dest))
        trace := [Event.sendVerificationCodeToEmail (demaskEmail env known form.dest)
          (env.SendVerificationCodeToEmail (some org) known
            (env.GetEmailProvider (env.GetApplicationByOrganizationName org.Name))
            env.GetIPFromRequest (demaskEmail env known form.dest))]
        state := afterDispatch env s (demaskEmail env known form.dest)
          (env.SendVerificationCodeToEmail (some org) known
            (env.GetEmailProvider (env.GetApplicationByOrganizationName org.Name))
            env.GetIPFromRequest (demaskEmail env known form.dest)) } := by
  unfold SendVerificationCode
  rw [if_neg hpresent, if_neg (by rw [hhuman]; simp)]
  simp only [horg, hbound, htype]
  rw [if_neg hlogin]
  simp [hvalid]

/-- C10 (as amended). In `SendVerificationCode`, for a known account and a claimed
destination d: if d is the masked form of the stored email (resp. phone), the de-masking
step of the email (resp. phone) channel yields the real stored value; for every other d
the step leaves d unchanged; with no known account d is always left unchanged. On the
email channel the destination resolved, to which the code is dispatched, is the result
of the step: the stored email for a masked d. On the phone channel the destination
resolved is the normalization (lines 118-121) of the result of the step: for a masked d
the stored phone itself when it begins with '+', otherwise "+" followed by the
organization's prefix and the stored phone. -/
theorem demask_resolves_stored_value (env : Env) (user : User) (d : String) :
    (d = env.GetMaskedEmail user.Email → demaskEmail env (some user) d = user.Email) ∧
    (d ≠ env.GetMaskedEmail user.Email → demaskEmail env (some user) d = d) ∧
    (d = env.GetMaskedPhone user.Phone → demaskPhone env (some user) d = user.Phone) ∧
    (d ≠ env.GetMaskedPhone user.Phone → demaskPhone env (some user) d = d) ∧
    demaskEmail env none d = d ∧ demaskPhone env none d = d ∧
    (∀ (s : State) (form : SendVerificationCodeForm) (dest : String) (failure : Option String),
      Event.sendVerificationCodeToEmail dest failure ∈ (SendVerificationCode env s form).trace →
      ∃ known, boundUser env (getCurrentUser env s) form.organizationId form.checkUser =
          some known ∧
        dest = demaskEmail env known form.dest) ∧
    (∀ (s : State) (form : SendVerificationCodeForm) (dest : String) (failure : Option String),
      Event.sendVerificationCodeToPhone dest failure ∈ (SendVerificationCode env s form).trace →
      ∃ known org, boundUser env (getCurrentUser env s) form.organizationId form.checkUser =
          some known ∧
        env.GetOrganization form.organizationId = some org ∧
        dest = normalizePhone org.PhonePrefix (demaskPhone env known form.dest)) ∧
    (∀ (s : State) (form : SendVerificationCodeForm) (org : Organization),
      ¬ (form.type_ = "" ∨ form.dest = "" ∨ form.organizationId = "" ∨
        ¬ ('/' ∈ form.organizationId.data) ∨ form.checkType = "" ∨ form.checkId = "" ∨
        form.checkKey = "") →
      isHuman env form.checkId form.checkKey = true →
      env.GetOrganization form.organizationId = some org →
      ¬ (form.checkUser = "true" ∧ getCurrentUser env s = none ∧
        env.GetUserByFields org.Name form.dest = none) →
      boundUser env (getCurrentUser env s) form.organizationId form.checkUser =
        some (some user) →
      form.type_ = "email" → form.dest = d → d = env.GetMaskedEmail user.Email →
      env.IsEmailValid user.Email = true →
      (SendVerificationCode env s form).trace =
        [Event.sendVerificationCodeToEmail user.Email
          (env.SendVerificationCodeToEmail (some org) (some user)
            (env.GetEmailProvider (env.GetApplicationByOrganizationName org.Name))
            env.GetIPFromRequest user.Email)]) ∧
    (∀ (s : State) (form : SendVerificationCodeForm) (org : Organization),
      ¬ (form.type_ = "" ∨ form.dest = "" ∨ form.organizationId = "" ∨
        ¬ ('/' ∈ form.organizationId.data) ∨ form.checkType = "" ∨ form.checkId = "" ∨
        form.checkKey = "") →
      isHuman env form.checkId form.checkKey = true →
      env.GetOrganization form.organizationId = some org →
      ¬ (form.checkUser = "true" ∧ getCurrentUser env s = none ∧
        env.GetUserByFields org.Name form.dest = none) →
      boundUser env (getCurrentUser env s) form.organizationId form.checkUser =
        some (some user) →
      form.type_ = "phone" → form.dest = d → d = env.GetMaskedPhone user.Phone →
      (SendVerificationCode env s form).trace =
        [Event.sendVerificationCodeToPhone (normalizePhone org.PhonePrefix user.Phone)
          (env.SendVerificationCodeToPhone (some org) (some user)
            (env.GetSmsProvider (env.GetApplicationByOrganizationName org.Name))
            env.GetIPFromRequest (normalizePhone org.PhonePrefix user.Phone))] ∧
      (HasPrefix user.Phone "+" = true → normalizePhone org.PhonePrefix user.Phone = user.Phone) ∧
      (HasPrefix user.Phone "+" = false →
        normalizePhone org.PhonePrefix user.Phone = "+" ++ org.PhonePrefix ++ user.Phone)) := by
  have hemail : d = env.GetMaskedEmail user.Email → demaskEmail env (some user) d = user.Email := by
    intro h
    simp [demaskEmail, h]
  have hphone : d = env.GetMaskedPhone user.Phone → demaskPhone env (some user) d = user.Phone := by
    intro h
    simp [demaskPhone, h]
  refine ⟨hemail, ?_, hphone, ?_, rfl, rfl, ?_, ?_, ?_, ?_⟩
  · intro h
    simp [demaskEmail, Ne.symm h]
  · intro h
    simp [demaskPhone, Ne.symm h]
  · intro s form
    exact (sendVerificationCode_destination env s form).1
  · intro s form
    exact (sendVerificationCode_destination env s form).2
  · intro s form org hpresent hhuman horg hlogin hbound htype hdest hmask hvalid
    have hstep : demaskEmail env (some user) form.dest = user.Email := by
      rw [hdest]; exact hemail hmask
    rw [sendVerificationCode_email_run env s form org (some user) hpresent hhuman horg hlogin
      hbound htype (by rw [hstep]; exact hvalid)]
    simp only [hstep]
  · intro s form org hpresent hhuman horg hlogin hbound htype hdest hmask
    have hstep : demaskPhone env (some user) form.dest = user.Phone := by
      rw [hdest]; exact hphone hmask
    refine ⟨?_, ?_, ?_⟩
    · rw [sendVerificationCode_phone_run env s form org (some user) hpresent hhuman horg hlogin
        hbound htype]
      simp only [hstep]
    · intro h
      simp [normalizePhone, h]
    · intro h
      simp [normalizePhone, h]

/-- C10 at a concrete input: alice, signed in, claims the masked form "a***" of her
stored email "a@b.c" and the code is dispatched to "a@b.c"; she claims the masked form
"5***" of her stored phone "5551234" and the code is dispatched to its normalization
under the organization's prefix "1". -/
theorem demask_resolves_stored_value_witness :
    (knownEnv "a@b.c" "5551234").GetMaskedEmail "a@b.c" = "a***" ∧
    (knownEnv "a@b.c" "5551234").GetMaskedPhone "5551234" = "5***" ∧
    (SendVerificationCode (knownEnv "a@b.c" "5551234") (signedIn [])
      (sampleSendForm "email" "a***" "ok" "")).trace =
      [Event.sendVerificationCodeToEmail "a@b.c" none] ∧
    (SendVerificationCode (knownEnv "a@b.c" "5551234") (signedIn [])
      (sampleSendForm "phone" "5***" "ok" "")).trace =
      [Event.sendVerificationCodeToPhone "+15551234" none] ∧
    demaskEmail (knownEnv "a@b.c" "5551234") (some (sampleUser "7" "a@b.c" "5551234"))
      "x@y.z" = "x@y.z" :=
  have h := demask_resolves_stored_value (knownEnv "a@b.c" "5551234")
    (sampleUser "7" "a@b.c" "5551234")
  ⟨by decide, by decide,
    (h "a***").2.2.2.2.2.2.2.2.1 (signedIn []) (sampleSendForm "email" "a***" "ok" "")
      sampleOrganization (by decide) (by decide) rfl (by decide) (by decide) rfl rfl
      (by decide) (by decide),
    ((h "5***").2.2.2.2.2.2.2.2.2 (signedIn []) (sampleSendForm "phone" "5***" "ok" "")
      sampleOrganization (by decide) (by decide) rfl (by decide) (by decide) rfl rfl
      (by decide)).1,
    (h "x@y.z").2.1 (by decide)⟩

/-- C10 as stated fails on the phone channel: alice's stored phone is "5551234", she
claims its masked form "5***", and the destination resolved, to which the code is
dispatched, is "+15551234", not the stored value. -/
theorem demask_resolves_stored_value_counterexample :
    getCurrentUser (knownEnv "a@b.c" "5551234") (signedIn []) =
      some (sampleUser "7" "a@b.c" "5551234") ∧
    (sampleUser "7" "a@b.c" "5551234").Phone = "5551234" ∧
    (knownEnv "a@b.c" "5551234").GetMaskedPhone "5551234" = "5***" ∧
    (SendVerificationCode (knownEnv "a@b.c" "5551234") (signedIn [])
      (sampleSendForm "phone" "5***" "ok" "")).trace =
      [Event.sendVerificationCodeToPhone "+15551234" none] ∧
    (SendVerificationCode (knownEnv "a@b.c" "5551234") (signedIn [])
      (sampleSendForm "phone" "5***" "ok" "")).trace ≠
      [Event.sendVerificationCodeToPhone "5551234" none] := by
  decide

/-! ### C11: phone normalization -/

/-- C11. The phone normalization of `SendVerificationCode` (a destination beginning with
'+' is kept unchanged, any other destination p becomes "+" ++ x ++ p for the prefix x)
is idempotent for every input and every prefix. The destination "5551234" with prefix
"1" is normalized to "+15551234". Every code `SendVerificationCode` dispatches on the
phone channel goes to the normalization, under the organization's prefix, of the
de-masked claimed destination; and a phone request with dest "5551234" for an
organization with prefix "1" that passes the parameter, human and login checks, and
whose dest is not the masked phone of a known account, dispatches exactly one code, to
"+15551234". -/
theorem normalizePhone_idempotent :
    (∀ x p : String, normalizePhone x (normalizePhone x p) = normalizePhone x p) ∧
    (∀ x p : String, HasPrefix p "+" = true → normalizePhone x p = p) ∧
    (∀ x p : String, HasPrefix p "+" = false → normalizePhone x p = "+" ++ x ++ p) ∧
    normalizePhone "1" "5551234" = "+15551234" ∧
    (∀ (env : Env) (s : State) (form : SendVerificationCodeForm) (dest : String)
      (failure : Option String),
      Event.sendVerificationCodeToPhone dest failure ∈ (SendVerificationCode env s form).trace →
      ∃ known org, boundUser env (getCurrentUser env s) form.organizationId form.checkUser =
          some known ∧
        env.GetOrganization form.organizationId = some org ∧
        dest = normalizePhone org.PhonePrefix (demaskPhone env known form.dest)) ∧
    (∀ (env : Env) (s : State) (form : SendVerificationCodeForm) (org : Organization)
      (known : Option User),
      ¬ (form.type_ = "" ∨ form.dest = "" ∨ form.organizationId = "" ∨
        ¬ ('/' ∈ form.organizationId.data) ∨ form.checkType = "" ∨ form.checkId = "" ∨
        form.checkKey = "") →
      isHuman env form.checkId form.checkKey = true →
      env.GetOrganization form.organizationId = some org →
      ¬ (form.checkUser = "true" ∧ getCurrentUser env s = none ∧
        env.GetUserByFields org.Name form.dest = none) →
      boundUser env (getCurrentUser env s) form.organizationId form.checkUser = some known →
      form.type_ = "phone" → form.dest = "5551234" → org.PhonePrefix = "1" →
      demaskPhone env known "5551234" = "5551234" →
      (SendVerificationCode env s form).trace =
        [Event.sendVerificationCodeToPhone "+15551234"
          (env.SendVerificationCodeToPhone (some org) known
            (env.GetSmsProvider (env.GetApplicationByOrganizationName org.Name))
            env.GetIPFromRequest "+15551234")]) := by
  refine ⟨?_, ?_, ?_, by decide, ?_, ?_⟩
  · intro x p
    have h := hasPrefix_normalizePhone x p
    generalize normalizePhone x p = q at h ⊢
    simp [normalizePhone, h]
  · intro x p h
    simp [normalizePhone, h]
  · intro x p h
    simp [normalizePhone, h]
  · intro env s form
    exact (sendVerificationCode_destination env s form).2
  · intro env s form org known hpresent hhuman horg hlogin hbound htype hdest hpre hmask
    have hnorm : normalizePhone "1" "5551234" = "+15551234" := by decide
    rw [sendVerificationCode_phone_run env s form org known hpresent hhuman horg hlogin hbound
      htype]
    simp only [hdest, hpre, hmask, hnorm]

/-- C11 at a concrete input: a phone request with dest "5551234" for the sample
organization, whose prefix is "1", dispatches one code, to "+15551234". -/
theorem normalizePhone_idempotent_witness :
    isHuman verifyingEnv (sampleSendForm "phone" "5551234" "ok" "").checkId
      (sampleSendForm "phone" "5551234" "ok" "").checkKey = true ∧
    sampleOrganization.PhonePrefix = "1" ∧
    (SendVerificationCode verifyingEnv (anonymous [])
      (sampleSendForm "phone" "5551234" "ok" "")).trace =
      [Event.sendVerificationCodeToPhone "+15551234" none] ∧
    normalizePhone "1" (normalizePhone "1" "5551234") = normalizePhone "1" "5551234" :=
  ⟨by decide, rfl,
    normalizePhone_idempotent.2.2.2.2.2 verifyingEnv (anonymous [])
      (sampleSendForm "phone" "5551234" "ok" "") sampleOrganization none
      (by decide) (by decide) rfl (by decide) (by decide) rfl rfl rfl (by decide),
    normalizePhone_idempotent.1 "1" "5551234"⟩

/-! ### C12: the phone destination of `Signup` -/

/-- The destination on which `Signup` checks the phone code is the normalization of the
submitted phone with the submitted prefix exactly when the phone does not begin with
'+'. -/
theorem signupCheckPhone_eq_normalizePhone_iff (app : Application) (form : RequestForm)
    (hvis : app.IsSignupItemVisible "Phone" = true) (hne : form.Phone ≠ "") :
    signupCheckPhone app form = normalizePhone form.PhonePrefix form.Phone ↔
      HasPrefix form.Phone "+" = false := by
  have hcp : signupCheckPhone app form = "+" ++ form.PhonePrefix ++ form.Phone := by
    simp [signupCheckPhone, hvis, hne]
  rw [hcp]
  cases h : HasPrefix form.Phone "+" with
  | false => simp [normalizePhone, h]
  | true =>
    simp only [normalizePhone, h, if_true]
    constructor
    · intro heq
      have hlen := congrArg String.length heq
      simp only [String.length_append] at hlen
      have : ("+" : String).length = 1 := by decide
      omega
    · intro hf
      exact absurd hf (by simp)

/-- C12: the code at the failing input. The phone "+15551234" is submitted with prefix
"1". `SendVerificationCode` keeps a destination that begins with '+' and issues the code
"123456" to "+15551234", the normalization of the phone. `Signup`, with the "Phone" item
visible, checks that code on "+1+15551234": the check fails with "Code has not been sent
yet!" and the signup is rejected, although the submitted code is the one issued. -/
theorem signup_phone_destination_mismatch :
    verifyingApp.IsSignupItemVisible "Phone" = true ∧
    normalizePhone plusPhoneForm.PhonePrefix plusPhoneForm.Phone = "+15551234" ∧
    (SendVerificationCode verifyingEnv (anonymous [])
      (sampleSendForm "phone" "+15551234" "ok" "")).trace =
      [Event.sendVerificationCodeToPhone "+15551234" none] ∧
    afterPlusPhoneSend.records =
      [{ Receiver := "+15551234", Code := "123456", Expiry := 400, IsUsed := false }] ∧
    CheckVerificationCode afterPlusPhoneSend.records afterPlusPhoneSend.now "+15551234"
      "123456" = "" ∧
    Signup verifyingEnv afterPlusPhoneSend (Except.ok plusPhoneForm) =
      { reply := ResponseError "Phone: Code has not been sent yet!" ""
        trace := [Event.checkVerificationCode "+1+15551234" "123456"
          "Code has not been sent yet!"]
        state := afterPlusPhoneSend } := by
  decide

/-! ### C13: the account of a Lightweight signup -/

/-- The email of a Lightweight account is set only on the email channel. -/
theorem ottSignupEmail_ne_empty (s : State) (app : Application) (form : OTTSignUpRequest)
    (h : ottSignupEmail app form ≠ "") :
    form.Type_ = 1 ∧ ottSignupEmail app form = form.Identity ∧
    ottSignupCheckPhone app form = "" ∧
    ottSignupChecks s app form =
      [Event.checkVerificationCode form.Identity form.VerificationCode
        (CheckVerificationCode s.records s.now form.Identity form.VerificationCode)] := by
  unfold ottSignupEmail at h ⊢
  by_cases hc : form.Type_ = 1 ∧ app.IsSignupItemVisible "Email" = true ∧
      app.GetSignupItemRule "Email" ≠ "No verification" ∧ form.Identity ≠ ""
  · have h10 : (1 : Int) ≠ 0 := by decide
    refine ⟨hc.1, by rw [if_pos hc], ?_, ?_⟩
    · simp [ottSignupCheckPhone, hc.1]
    · rw [ottSignupChecks, if_pos hc.1, if_pos hc.2]
  · rw [if_neg hc] at h
    exact absurd rfl h

/-- The phone of a Lightweight account is set only on the phone channel. -/
theorem ottSignupCheckPhone_ne_empty (s : State) (app : Application) (form : OTTSignUpRequest)
    (h : ottSignupCheckPhone app form ≠ "") :
    form.Type_ = 0 ∧ ottSignupEmail app form = "" ∧
    ∃ pre0, form.Prefix = some pre0 ∧
      ottSignupCheckPhone app form = "+" ++ pre0 ++ form.Identity ∧
      ottSignupRegion app form = pre0 ∧
      ottSignupChecks s app form =
        [Event.checkVerificationCode ("+" ++ pre0 ++ form.Identity) form.VerificationCode
          (CheckVerificationCode s.records s.now ("+" ++ pre0 ++ form.Identity)
            form.VerificationCode)] := by
  unfold ottSignupCheckPhone at h
  by_cases ht : form.Type_ = 0
  · rw [if_pos ht] at h
    have h01 : form.Type_ ≠ 1 := by rw [ht]; decide
    cases hp : form.Prefix with
    | none =>
      rw [hp] at h
      exact absurd rfl h
    | some pre0 =>
      rw [hp] at h
      by_cases hc : app.IsSignupItemVisible "Phone" = true ∧ form.Identity ≠ "" ∧ pre0 ≠ ""
      · refine ⟨ht, ?_, pre0, rfl, ?_, ?_, ?_⟩
        · simp [ottSignupEmail, h01]
        · simp only [ottSignupCheckPhone, if_pos ht, hp, if_pos hc]
        · simp only [ottSignupRegion, if_pos ht, hp, if_pos hc]
        · simp only [ottSignupChecks, if_neg h01, if_pos ht, hp, if_pos hc]
      · simp only [if_neg hc] at h
        exact absurd rfl h
  · rw [if_neg ht] at h
    exact absurd rfl h

/-- C13. For every account persisted by `OTTSignup` the contact fields are exactly the
type-selected, verified channel. Email and Phone are never both non-empty. If Email is
non-empty then type = 1, Email is the submitted identity, and `CheckVerificationCode` on
the identity and the submitted code succeeded, in a call that precedes `AddUser`; and
conversely, when type = 1 and the email channel is verified ("Email" item visible, rule
not "No verification", identity non-empty), Email is the submitted identity and Phone
and Region are empty. If Phone is non-empty then type = 0, the prefix is present, Phone
is "+" ++ prefix ++ identity, `CheckVerificationCode` on that string and the submitted
code succeeded, in a call that precedes `AddUser`, and Region is the prefix; and
conversely, when type = 0 and the phone channel is verified ("Phone" item visible,
identity and prefix non-empty), Phone is "+" ++ prefix ++ identity, Region is the prefix
and Email is empty. Owner is "OTT", and Id, Name and DisplayName all equal the
identifier `util.GenerateId` returned. -/
theorem ott_signup_account_fields (env : Env) (s : State)
    (body : Except String OTTSignUpRequest) (user : User)
    (h : Event.addUser user true ∈ (OTTSignup env s body).trace) :
    ∃ form app, body = Except.ok form ∧
      env.GetApplication ("admin/" ++ form.AppId) = some app ∧
      ¬ (user.Email ≠ "" ∧ user.Phone ≠ "") ∧
      (user.Email ≠ "" →
        form.Type_ = 1 ∧ user.Email = form.Identity ∧
        CheckVerificationCode s.records s.now form.Identity form.VerificationCode = "" ∧
        occursBefore (Event.checkVerificationCode form.Identity form.VerificationCode "")
          (Event.addUser user true) (OTTSignup env s body).trace = true) ∧
      (user.Phone ≠ "" →
        form.Type_ = 0 ∧
        ∃ pre0, form.Prefix = some pre0 ∧ user.Phone = "+" ++ pre0 ++ form.Identity ∧
          CheckVerificationCode s.records s.now ("+" ++ pre0 ++ form.Identity)
            form.VerificationCode = "" ∧
          occursBefore
            (Event.checkVerificationCode ("+" ++ pre0 ++ form.Identity)
              form.VerificationCode "")
            (Event.addUser user true) (OTTSignup env s body).trace = true ∧
          user.Region = pre0) ∧
      user.Owner = "OTT" ∧ user.Id = env.GenerateId ∧ user.Name = env.GenerateId ∧
      user.DisplayName = env.GenerateId ∧
      (form.Type_ = 1 → app.IsSignupItemVisible "Email" = true →
        app.GetSignupItemRule "Email" ≠ "No verification" → form.Identity ≠ "" →
        user.Email = form.Identity ∧ user.Phone = "" ∧ user.Region = "" ∧
        CheckVerificationCode s.records s.now form.Identity form.VerificationCode = "") ∧
      (form.Type_ = 0 → ∀ pre0, form.Prefix = some pre0 →
        app.IsSignupItemVisible "Phone" = true → form.Identity ≠ "" → pre0 ≠ "" →
        user.Phone = "+" ++ pre0 ++ form.Identity ∧ user.Region = pre0 ∧ user.Email = "" ∧
        CheckVerificationCode s.records s.now ("+" ++ pre0 ++ form.Identity)
          form.VerificationCode = "") ∧
      (form.Type_ ≠ 1 → form.Type_ ≠ 0 →
        user.Email = "" ∧ user.Phone = "" ∧ user.Region = "") := by
  rcases OTTSignup_run env s body with hab | ⟨form, app, org, hb, _, happ, _, _, hpass, hrun⟩
  · exact absurd h (not_mem_of_all_isCheck _ hab.2.2 _ rfl)
  · obtain ⟨hadd, _, hok, _⟩ := persistUser_trace env s app
      (ottSignupUser env app org form env.GenerateId (ottSignupEmail app form)
        (ottSignupCheckPhone app form) (ottSignupRegion app form))
      form.Identity (ottSignupCheckPhone app form) (ottSignupRejected env)
      (fun userId => OTTResponseOk (OTTBody.register userId)) (ottSignupChecks s app form)
      (all_isCheck_of_passed _ hpass) (ottSignup_reply_kinds env).1
      (ottSignup_reply_kinds env).2
    rw [← hrun] at hadd hok
    obtain ⟨hu, hb2⟩ := hadd user true h
    obtain ⟨_, _, hbefore, _⟩ := hok hb2.symm
    rw [← hu] at hbefore
    have hemail : user.Email = ottSignupEmail app form := by rw [hu]; rfl
    have hphone : user.Phone = ottSignupCheckPhone app form := by rw [hu]; rfl
    have hregion : user.Region = ottSignupRegion app form := by rw [hu]; rfl
    have hfromEmail : user.Email ≠ "" →
        form.Type_ = 1 ∧ user.Email = form.Identity ∧
        CheckVerificationCode s.records s.now form.Identity form.VerificationCode = "" ∧
        occursBefore (Event.checkVerificationCode form.Identity form.VerificationCode "")
          (Event.addUser user true) (OTTSignup env s body).trace = true := by
      intro he
      rw [hemail] at he
      obtain ⟨ht, hid, _, hchecks⟩ := ottSignupEmail_ne_empty s app form he
      have hmem : Event.checkVerificationCode form.Identity form.VerificationCode
          (CheckVerificationCode s.records s.now form.Identity form.VerificationCode) ∈
          ottSignupChecks s app form := by rw [hchecks]; simp
      obtain ⟨d, c, hdc⟩ := hpass _ hmem
      simp only [Event.checkVerificationCode.injEq] at hdc
      have hres := hdc.2.2
      refine ⟨ht, by rw [hemail, hid], hres, ?_⟩
      have := hbefore _ hmem
      rwa [hres] at this
    have hfromPhone : user.Phone ≠ "" →
        form.Type_ = 0 ∧
        ∃ pre0, form.Prefix = some pre0 ∧ user.Phone = "+" ++ pre0 ++ form.Identity ∧
          CheckVerificationCode s.records s.now ("+" ++ pre0 ++ form.Identity)
            form.VerificationCode = "" ∧
          occursBefore
            (Event.checkVerificationCode ("+" ++ pre0 ++ form.Identity)
              form.VerificationCode "")
            (Event.addUser user true) (OTTSignup env s body).trace = true ∧
          user.Region = pre0 := by
      intro hp
      rw [hphone] at hp
      obtain ⟨ht, _, pre0, hpre, hcp, hreg, hchecks⟩ := ottSignupCheckPhone_ne_empty s app form hp
      have hmem : Event.checkVerificationCode ("+" ++ pre0 ++ form.Identity)
          form.VerificationCode
          (CheckVerificationCode s.records s.now ("+" ++ pre0 ++ form.Identity)
            form.VerificationCode) ∈ ottSignupChecks s app form := by rw [hchecks]; simp
      obtain ⟨d, c, hdc⟩ := hpass _ hmem
      simp only [Event.checkVerificationCode.injEq] at hdc
      have hres := hdc.2.2
      refine ⟨ht, pre0, hpre, by rw [hphone, hcp], hres, ?_, by rw [hregion, hreg]⟩
      have := hbefore _ hmem
      rwa [hres] at this
    refine ⟨form, app, hb, happ, ?_, hfromEmail, hfromPhone, by rw [hu]; rfl, by rw [hu]; rfl,
      by rw [hu]; rfl, by rw [hu]; rfl, ?_, ?_, ?_⟩
    · rintro ⟨he, hp⟩
      rw [hemail] at he
      rw [hphone] at hp
      exact hp (ottSignupEmail_ne_empty s app form he).2.2.1
    · intro ht hv hr hi
      have h10 : (1 : Int) ≠ 0 := by decide
      have he : user.Email = form.Identity := by
        rw [hemail]
        simp [ottSignupEmail, ht, hv, hr, hi]
      have hne : user.Email ≠ "" := by rw [he]; exact hi
      refine ⟨he, ?_, ?_, (hfromEmail hne).2.2.1⟩
      · rw [hphone]
        simp [ottSignupCheckPhone, ht]
      · rw [hregion]
        simp [ottSignupRegion, ht]
    · intro ht pre0 hpre hv hi hp
      have h01 : (0 : Int) ≠ 1 := by decide
      have hph : user.Phone = "+" ++ pre0 ++ form.Identity := by
        rw [hphone]
        simp [ottSignupCheckPhone, ht, hpre, hv, hi, hp]
      have hne : user.Phone ≠ "" := by
        rw [hph]
        intro hcontra
        have hlen := congrArg String.length hcontra
        simp only [String.length_append] at hlen
        have h1 : ("+" : String).length = 1 := by decide
        have h0 : ("" : String).length = 0 := by decide
        omega
      obtain ⟨_, q, hq, _, hres, _, _⟩ := hfromPhone hne
      rw [hpre] at hq
      simp only [Option.some.injEq] at hq
      subst hq
      refine ⟨hph, ?_, ?_, hres⟩
      · rw [hregion]
        simp [ottSignupRegion, ht, hpre, hv, hi, hp]
      · rw [hemail]
        simp [ottSignupEmail, ht]
    · intro h1 h0
      refine ⟨?_, ?_, ?_⟩
      · rw [hemail]
        simp [ottSignupEmail, h1]
      · rw [hphone]
        simp [ottSignupCheckPhone, h0]
      · rw [hregion]
        simp [ottSignupRegion, h0]

/-- C13 at concrete inputs. A phone signup with prefix "1" and identity "5551234"
persists an account with Phone "+15551234", Region "1", no Email, Owner "OTT" and Name
"7f3a"; an email signup with identity "a@b.c" persists an account with Email "a@b.c"
and no Phone. -/
theorem ott_signup_account_fields_witness :
    Event.addUser phoneAccount true ∈
      (OTTSignup verifyingEnv (anonymous issuedCodes) (Except.ok phoneOTTForm)).trace ∧
    phoneAccount.Phone = "+15551234" ∧ phoneAccount.Region = "1" ∧
    phoneAccount.Email = "" ∧
    phoneAccount.Owner = "OTT" ∧ phoneAccount.Name = "7f3a" ∧
    phoneAccount.DisplayName = "7f3a" ∧
    Event.addUser emailAccount true ∈
      (OTTSignup verifyingEnv (anonymous issuedCodes) (Except.ok emailOTTForm)).trace ∧
    emailAccount.Email = "a@b.c" ∧ emailAccount.Phone = "" := by
  obtain ⟨form, app, hb, happ, _, _, _, h4, _, h6, h7, _, hp, _⟩ :=
    ott_signup_account_fields verifyingEnv (anonymous issuedCodes)
      (Except.ok phoneOTTForm) phoneAccount (by decide)
  obtain ⟨form2, app2, hb2, happ2, _, _, _, _, _, _, _, he, _, _⟩ :=
    ott_signup_account_fields verifyingEnv (anonymous issuedCodes)
      (Except.ok emailOTTForm) emailAccount (by decide)
  cases hb
  cases hb2
  cases happ
  cases happ2
  have hphone := hp rfl "1" rfl (by decide) (by decide) (by decide)
  have hemail := he rfl (by decide) (by decide) (by decide)
  exact ⟨by decide, hphone.1, hphone.2.1, hphone.2.2.1, h4, h6, h7, by decide, hemail.1,
    hemail.2.1⟩

end Casdoor
